import Mathlib

/-!
# MyCyclingCity ESP32 firmware — verification development

Shallow embedding of the lifecycle / state-machine core of
`mcc-esp32/src/main.cpp` and `mcc-esp32/src/device_management.cpp`.

Modelling conventions:
* C/C++ `float` values (wheel circumference, distances, speeds) are modelled
  exactly over `ℚ`; the source formulas are mirrored verbatim.
* `int16_t` pulse counters are modelled as `ℤ`, `unsigned` values as `ℕ`.
* `millis()` timestamps are `ℕ`; a whole pass through `loop()` is modelled at
  a single instant `now` (all `millis()` reads of one tick yield `now`),
  and stored timestamps are assumed `≤ now` where a difference is taken.
* The NVS preference store is a record of `Option` values (a `none` entry is
  an absent key); `getX(key, default)` becomes `Option.getD`.
* HTTP traffic is an oracle argument: each network call receives the outcome
  the transport would have produced, and the embedding mirrors exactly how
  the source reacts to it.  A call-site "issues" a request only when the
  source actually reaches the `http.POST`/`http.GET` line.
-/

namespace MCC

/-- Outcome of a raw HTTP exchange: `conn` is a connection error
(`httpCode <= 0`), `status code` is an HTTP response with that status. -/
inductive HttpOutcome where
  | conn : HttpOutcome
  | status (code : ℕ) : HttpOutcome
  deriving Repr, DecidableEq

/-- Optional fields of the server `config` object read by `fetchDeviceConfig`
(`device_management.cpp` lines 336-577); an absent JSON key is `none`. -/
structure FetchedConfig where
  default_id_tag : Option String := none
  send_interval_seconds : Option ℕ := none
  server_url : Option String := none
  wheel_size : Option ℚ := none
  debug_mode : Option Bool := none
  test_mode : Option Bool := none
  deep_sleep_seconds : Option ℕ := none
  ap_password : Option String := none
  device_api_key : Option String := none
  config_fetch_interval_seconds : Option ℕ := none
  deriving Repr, DecidableEq

/-- Parsed body of the `GET /api/device/config/fetch` response, as consumed by
`fetchDeviceConfig`: the body may fail to parse as JSON, may lack the
`success` key, or carries a `success` flag and an optional `config` object. -/
inductive FetchBody where
  | parseError : FetchBody
  | missingSuccess : FetchBody
  | payload (success : Bool) (config : Option FetchedConfig) : FetchBody
  deriving Repr, DecidableEq

/-- HTTP-level outcome of the config fetch: connection error, or a status
code together with the (parsed) body. -/
inductive FetchResp where
  | conn : FetchResp
  | http (code : ℕ) (body : FetchBody) : FetchResp
  deriving Repr, DecidableEq

/-- Body of the `POST /api/get-user-id` response as consumed by
`getUserIdFromTag` (`main.cpp` lines 1951-2006): parse error, a JSON object
without the `user_id` key, or the `user_id` value. -/
inductive UserBody where
  | parseError : UserBody
  | noUserIdKey : UserBody
  | userId (uid : String) : UserBody
  deriving Repr, DecidableEq

/-- HTTP-level outcome of the user-id query. -/
inductive UserResp where
  | conn : UserResp
  | http (code : ℕ) (body : UserBody) : UserResp
  deriving Repr, DecidableEq

/-- The NVS key/value namespace `bike-tacho` (keys actually used by the
firmware); `none` = key absent.  Field names are the NVS key names. -/
structure Nvs where
  wifi_ssid : Option String := none
  wifi_password : Option String := none
  deviceName : Option String := none
  default_id_tag : Option String := none
  idTag : Option String := none            -- legacy key for default_id_tag
  wheel_size : Option ℚ := none
  serverUrl : Option String := none
  apiKey : Option String := none
  sendInterval : Option ℕ := none
  ledEnabled : Option Bool := none
  debugEnabled : Option Bool := none
  deep_sleep : Option ℕ := none
  testModeEnabled : Option Bool := none
  testDistance : Option ℚ := none
  testInterval : Option ℕ := none
  ap_passwd : Option String := none
  cfg_fetch_int : Option ℕ := none
  deriving Repr, DecidableEq

/-- Build-time fallback flags (`-D DEFAULT_...` in platformio.ini); `none`
means the flag is not defined in this build. -/
structure BuildFlags where
  defaultDeviceName : Option String := none
  defaultIdTag : Option String := none
  defaultServerUrl : Option String := none
  defaultApiKey : Option String := none
  deriving Repr, DecidableEq

/-- The mutable state of the firmware: the global variables of `main.cpp`
(same names), the NVS store, and the modelled hardware/WiFi context. -/
structure DeviceState where
  nvs : Nvs := {}
  -- globals of main.cpp (initializers as in lines 97-174)
  wifi_ssid : String := ""
  wifi_password : String := ""
  deviceName : String := ""
  idTag : String := ""
  username : String := ""
  lastSentIdTag : String := ""
  idTagFromRFID : Bool := false
  lastServerErrorTime : ℕ := 0
  apiKeyErrorActive : Bool := false
  wifiConnectAttempts : ℕ := 0
  wheel_size : ℚ := 2075
  serverUrl : String := ""
  apiKey : String := ""
  sendInterval_sec : ℕ := 30
  ledEnabled : Bool := true
  debugEnabled : Bool := true
  testActive : Bool := false
  testDistance : ℚ := 1
  testInterval_sec : ℕ := 10
  deepSleepTimeout_sec : ℕ := 300
  deepSleepOn : Bool := true               -- C++ global `DeepSleep`
  configFetchInterval_sec : ℕ := 3600
  lastConfigFetchTime : ℕ := 0
  configMode : Bool := false
  configModeForced : Bool := false
  configModeStartTime : ℕ := 0
  configModeTimeout_sec : ℕ := 300
  idTagAtConfigStart : String := ""
  idTagAtConfigStartInitialized : Bool := false
  currentPulseCount : ℤ := 0
  lastPulseCount : ℤ := 0
  totalDistance_mm : ℚ := 0
  distanceInInterval_mm : ℚ := 0
  pulsesAtLastSend : ℤ := 0
  speed_kmh : ℚ := 0
  lastDataSendTime : ℕ := 0
  lastPulseTime : ℕ := 0
  previousPulseTime : ℕ := 0
  currentSpeed_kmh : ℚ := 0
  speedHistory : List ℚ := [0, 0, 0, 0, 0]  -- fixed-size ring buffer, N = 5
  speedHistoryIndex : ℕ := 0
  speedHistoryCount : ℕ := 0
  -- modelled environment
  hwCount : ℤ := 0                 -- PCNT hardware register (cleared by resets)
  wifiConnected : Bool := false    -- WiFi.status() == WL_CONNECTED
  serverRunning : Bool := false    -- config web server active
  apActive : Bool := false         -- soft-AP active
  restarted : Bool := false        -- ESP.restart() was executed
  deriving Repr, DecidableEq

/-- `serverErrorBackoffInterval` (`main.cpp` line 132): 60 s in ms. -/
def serverErrorBackoffInterval : ℕ := 60000

/-- `SPEED_TIMEOUT_MS` (`main.cpp` line 170). -/
def SPEED_TIMEOUT_MS : ℕ := 5000

/-! ## Configuration reconciliation: `fetchDeviceConfig` / `testApiKey`
(`device_management.cpp`)

The ten field blocks of the config-application section (lines 336-577) are
pairwise independent: each block reads and writes only its own field(s), with
the single exception that `testApiKey` reads the global `serverUrl`, which the
`server_url` block (line 399-401) may already have updated.  The embedding
makes each block a function of the incoming config and the pre-state, and
`applyServerConfig` combines them in one simultaneous update, passing the
already-updated server URL into the API-key block explicitly. -/

/-- `testApiKey` (`device_management.cpp` lines 1010-1080): a heartbeat `POST`
authenticated with `testKey`; only HTTP 200 counts as success, 401/403, any
other status and connection errors all fail.  `url` is the global `serverUrl`
at call time. -/
def testApiKey (testKey url : String) (wifi : Bool) (resp : HttpOutcome) : Bool :=
  if testKey = "" ∨ url = "" ∨ wifi = false then false
  else
    match resp with
    | .status code => code = 200
    | .conn => false

/-- `default_id_tag` block (lines 336-368): applied only when non-empty and
different from the stored default (legacy `idTag` key as fallback); writes
both NVS keys and the in-memory `idTag`.  Returns
`(nvs default_id_tag, nvs idTag, global idTag)`. -/
def fetchApplyDefaultIdTag (c : FetchedConfig) (g : DeviceState) :
    Option String × Option String × String :=
  match c.default_id_tag with
  | some newTag =>
      if newTag ≠ "" then
        let currentDefault := (g.nvs.default_id_tag).getD ""
        let currentDefault :=
          if currentDefault = "" then (g.nvs.idTag).getD "" else currentDefault
        if newTag ≠ currentDefault then (some newTag, some newTag, newTag)
        else (g.nvs.default_id_tag, g.nvs.idTag, g.idTag)
      else (g.nvs.default_id_tag, g.nvs.idTag, g.idTag)
  | none => (g.nvs.default_id_tag, g.nvs.idTag, g.idTag)

/-- `send_interval_seconds` block (lines 370-390): applied only when `> 0`.
Returns `(nvs sendInterval, global sendInterval_sec)`. -/
def fetchApplySendInterval (c : FetchedConfig) (g : DeviceState) : Option ℕ × ℕ :=
  match c.send_interval_seconds with
  | some newInterval =>
      if newInterval > 0 then
        if newInterval ≠ g.sendInterval_sec then (some newInterval, newInterval)
        else (g.nvs.sendInterval, g.sendInterval_sec)
      else (g.nvs.sendInterval, g.sendInterval_sec)
  | none => (g.nvs.sendInterval, g.sendInterval_sec)

/-- `server_url` block (lines 392-412): applied only when non-empty. -/
def fetchApplyServerUrl (c : FetchedConfig) (g : DeviceState) : Option String × String :=
  match c.server_url with
  | some newUrl =>
      if newUrl ≠ "" then
        if newUrl ≠ g.serverUrl then (some newUrl, newUrl)
        else (g.nvs.serverUrl, g.serverUrl)
      else (g.nvs.serverUrl, g.serverUrl)
  | none => (g.nvs.serverUrl, g.serverUrl)

/-- `wheel_size` block (lines 414-437): applied only when within
`[500, 3000]` mm, and only when it differs from the current value by more
than the 1 mm comparison tolerance. -/
def fetchApplyWheelSize (c : FetchedConfig) (g : DeviceState) : Option ℚ × ℚ :=
  match c.wheel_size with
  | some newSizeMm =>
      if 500 ≤ newSizeMm ∧ newSizeMm ≤ 3000 then
        if |newSizeMm - g.wheel_size| > 1 then (some newSizeMm, newSizeMm)
        else (g.nvs.wheel_size, g.wheel_size)
      else (g.nvs.wheel_size, g.wheel_size)
  | none => (g.nvs.wheel_size, g.wheel_size)

/-- `debug_mode` block (lines 441-456): booleans are always "real", so the
value is applied whenever the key is present (also `false`). -/
def fetchApplyDebugMode (c : FetchedConfig) (g : DeviceState) : Option Bool × Bool :=
  match c.debug_mode with
  | some newDebug =>
      if newDebug ≠ g.debugEnabled then (some newDebug, newDebug)
      else (g.nvs.debugEnabled, g.debugEnabled)
  | none => (g.nvs.debugEnabled, g.debugEnabled)

/-- `test_mode` block (lines 458-473): applied whenever present. -/
def fetchApplyTestMode (c : FetchedConfig) (g : DeviceState) : Option Bool × Bool :=
  match c.test_mode with
  | some newTest =>
      if newTest ≠ g.testActive then (some newTest, newTest)
      else (g.nvs.testModeEnabled, g.testActive)
  | none => (g.nvs.testModeEnabled, g.testActive)

/-- `deep_sleep_seconds` block (lines 475-493): `0` is a valid value
(deep sleep disabled), so the value is applied whenever the key is present. -/
def fetchApplyDeepSleep (c : FetchedConfig) (g : DeviceState) : Option ℕ × ℕ :=
  match c.deep_sleep_seconds with
  | some newSleep =>
      if newSleep ≠ g.deepSleepTimeout_sec then (some newSleep, newSleep)
      else (g.nvs.deep_sleep, g.deepSleepTimeout_sec)
  | none => (g.nvs.deep_sleep, g.deepSleepTimeout_sec)

/-- `ap_password` block (lines 495-521): applied only with at least 8
characters; stored in NVS only (no in-memory copy). -/
def fetchApplyApPassword (c : FetchedConfig) (g : DeviceState) : Option String :=
  match c.ap_password with
  | some newAPPassword =>
      if 8 ≤ newAPPassword.length then
        if newAPPassword ≠ (g.nvs.ap_passwd).getD "" then some newAPPassword
        else g.nvs.ap_passwd
      else g.nvs.ap_passwd
  | none => g.nvs.ap_passwd

/-- `device_api_key` block (lines 526-553): a non-empty new key is first
tested via `testApiKey` (which reads the possibly already-updated global
`serverUrl`, passed here as `urlNow`); only a passing test persists and
adopts it. -/
def fetchApplyDeviceApiKey (c : FetchedConfig) (urlNow : String) (wifi : Bool)
    (apiTest : HttpOutcome) (g : DeviceState) : Option String × String :=
  match c.device_api_key with
  | some newApiKey =>
      if newApiKey ≠ "" then
        if testApiKey newApiKey urlNow wifi apiTest then (some newApiKey, newApiKey)
        else (g.nvs.apiKey, g.apiKey)
      else (g.nvs.apiKey, g.apiKey)
  | none => (g.nvs.apiKey, g.apiKey)

/-- `config_fetch_interval_seconds` block (lines 556-577): applied only when
`> 0`. -/
def fetchApplyConfigFetchInterval (c : FetchedConfig) (g : DeviceState) : Option ℕ × ℕ :=
  match c.config_fetch_interval_seconds with
  | some newInterval =>
      if newInterval > 0 then
        if newInterval ≠ g.configFetchInterval_sec then (some newInterval, newInterval)
        else (g.nvs.cfg_fetch_int, g.configFetchInterval_sec)
      else (g.nvs.cfg_fetch_int, g.configFetchInterval_sec)
  | none => (g.nvs.cfg_fetch_int, g.configFetchInterval_sec)

/-- The configuration-application section of `fetchDeviceConfig`
(`device_management.cpp` lines 316-589), applied to a parsed `config`
object.  `device_name` is deliberately ignored (lines 332-334); `wifi_ssid`
and `wifi_password` are never updated remotely (line 523). -/
def applyServerConfig (c : FetchedConfig) (apiTest : HttpOutcome) (wifi : Bool)
    (g : DeviceState) : DeviceState :=
  let tag := fetchApplyDefaultIdTag c g
  let si := fetchApplySendInterval c g
  let su := fetchApplyServerUrl c g
  let ws := fetchApplyWheelSize c g
  let dm := fetchApplyDebugMode c g
  let tm := fetchApplyTestMode c g
  let ds := fetchApplyDeepSleep c g
  let ap := fetchApplyApPassword c g
  let ak := fetchApplyDeviceApiKey c su.2 wifi apiTest g
  let cf := fetchApplyConfigFetchInterval c g
  { g with
    nvs := { g.nvs with
      default_id_tag := tag.1, idTag := tag.2.1,
      sendInterval := si.1, serverUrl := su.1, wheel_size := ws.1,
      debugEnabled := dm.1, testModeEnabled := tm.1, deep_sleep := ds.1,
      ap_passwd := ap, apiKey := ak.1, cfg_fetch_int := cf.1 }
    idTag := tag.2.2
    sendInterval_sec := si.2
    serverUrl := su.2
    wheel_size := ws.2
    debugEnabled := dm.2
    testActive := tm.2
    deepSleepTimeout_sec := ds.2
    apiKey := ak.2
    configFetchInterval_sec := cf.2 }

/-- `fetchDeviceConfig` (`device_management.cpp` lines 246-611): early-out on
missing server URL or WiFi, then a `GET`; only an HTTP 200 with a parseable
body containing `success == true` applies anything; the returned flag is the
parsed `success` value (or `false` on any earlier failure). -/
def fetchDeviceConfig (resp : FetchResp) (apiTest : HttpOutcome) (wifi : Bool)
    (g : DeviceState) : Bool × DeviceState :=
  if g.serverUrl = "" ∨ wifi = false then (false, g)
  else
    match resp with
    | .conn => (false, g)
    | .http code body =>
        if code = 200 then
          match body with
          | .parseError => (false, g)
          | .missingSuccess => (false, g)
          | .payload success config =>
              if success then
                match config with
                | some c => (true, applyServerConfig c apiTest wifi g)
                | none => (true, g)
              else (false, g)
        else (false, g)

/-! ## Rider-name query and helpers (`main.cpp`) -/

/-- Result of `getUserIdFromTag`: the returned string, the updated globals,
and whether an HTTP request was actually issued (control reached
`http.POST`). -/
structure UserQueryOut where
  result : String
  state : DeviceState
  issued : Bool
  deriving Repr, DecidableEq

/-- `getUserIdFromTag` (`main.cpp` lines 1900-2116).  An early return during
the backoff window or on missing connection/configuration issues no request
and reports `""` ("not attempted").  On HTTP 200 with a `user_id` key the
error backoff and the API-key error flag are cleared and a non-empty user id
is stored in `username`; 401/403 set the API-key error flag; 404 stores the
`"NULL"` sentinel; all error paths arm the backoff timer. -/
def getUserIdFromTag (r : UserResp) (now : ℕ) (g : DeviceState) : UserQueryOut :=
  if 0 < g.lastServerErrorTime ∧ now - g.lastServerErrorTime < serverErrorBackoffInterval then
    ⟨"", g, false⟩
  else if g.serverUrl = "" ∨ g.wifi_ssid = "" ∨ g.wifiConnected = false then
    ⟨"", g, false⟩
  else
    match r with
    | .http code body =>
        if code = 200 then
          match body with
          | .parseError => ⟨"FEHLER", g, true⟩
          | .userId uid =>
              let g := { g with lastServerErrorTime := 0, apiKeyErrorActive := false }
              let g := if uid ≠ "" then { g with username := uid } else g
              ⟨uid, g, true⟩
          | .noUserIdKey => ⟨"", g, true⟩
        else
          let g := { g with lastServerErrorTime := now }
          let g := if code = 401 ∨ code = 403 then { g with apiKeyErrorActive := true } else g
          if code = 404 then ⟨"NULL", { g with username := "NULL" }, true⟩
          else ⟨"", g, true⟩
    | .conn => ⟨"", { g with lastServerErrorTime := now }, true⟩

/-- Caller-side username update after a `getUserIdFromTag` call (`main.cpp`
lines 1005-1027 and 1331-1352): a non-empty result re-assigns `username`
when it changed (the query itself already stored the same value, so this
preserves it). -/
def applyUsernameResult (out : UserQueryOut) : DeviceState :=
  let g := out.state
  if out.result ≠ "" then
    let wasUsernameNull := g.username = "" ∨ g.username = "NULL"
    let isUsernameNull := out.result = "NULL"
    let usernameChanged := (wasUsernameNull ∧ ¬isUsernameNull) ∨ (¬wasUsernameNull ∧ isUsernameNull)
      ∨ g.username ≠ out.result
    if usernameChanged then { g with username := out.result } else g
  else g

/-- `hasValidUsername` (`main.cpp` line 1044). -/
def hasValidUsername (g : DeviceState) : Bool :=
  decide (g.apiKeyErrorActive = false ∧ g.username ≠ "" ∧ g.username ≠ "NULL")

/-- `resetDistanceCounters` (`main.cpp` lines 2387-2409): zeroes the software
distance/pulse mirrors, the hardware PCNT register and the speed model, all
in one non-preemptible call. -/
def resetDistanceCounters (g : DeviceState) : DeviceState :=
  { g with totalDistance_mm := 0, distanceInInterval_mm := 0, pulsesAtLastSend := 0,
           lastPulseCount := 0, currentPulseCount := 0, hwCount := 0,
           currentSpeed_kmh := 0, previousPulseTime := 0,
           speedHistoryIndex := 0, speedHistoryCount := 0,
           speedHistory := [0, 0, 0, 0, 0] }

/-- State effect of `display_Data` (`main.cpp` lines 2736-2789): the speed
idle-timeout check at lines 2740-2750 (the rendering itself is pure I/O).
Only compiled and called in `ENABLE_OLED` builds. -/
def display_Data (now : ℕ) (g : DeviceState) : DeviceState :=
  if 0 < g.lastPulseTime ∧ SPEED_TIMEOUT_MS ≤ now - g.lastPulseTime then
    { g with currentSpeed_kmh := 0, speedHistoryIndex := 0, speedHistoryCount := 0,
             speedHistory := [0, 0, 0, 0, 0] }
  else g

/-- `RFID_MFRC522_loop_handler` (`rfid_mfrc522_control.cpp` lines 90-124):
a successfully read card UID replaces the in-memory `idTag`. -/
def rfidHandler (tag : Option String) (g : DeviceState) : DeviceState :=
  match tag with
  | some newIdTag => if g.idTag ≠ newIdTag then { g with idTag := newIdTag } else g
  | none => g

/-! ## Pulse/distance engine (`main.cpp` loop, NormalMode) -/

/-- Number of binary digits of `n` (`0` for `0`), with explicit fuel so that
the recursion is structural.  `bits n` calls it with fuel `n`, which always
suffices. -/
def bitsAux : ℕ → ℕ → ℕ
  | 0, _ => 0
  | fuel + 1, n => if n = 0 then 0 else bitsAux fuel (n / 2) + 1

/-- Number of binary digits of `n`: for `0 < n`,
`2 ^ (bits n - 1) ≤ n < 2 ^ bits n`. -/
def bits (n : ℕ) : ℕ := bitsAux n n

/-- `a / b` rounded to the nearest integer, ties to even (`b > 0`). -/
def rnd (a b : ℕ) : ℕ :=
  let q := a / b
  let r := a % b
  if 2 * r < b then q
  else if b < 2 * r then q + 1
  else if q % 2 = 0 then q else q + 1

/-- IEEE 754 binary32 rounding of the positive fraction `n / d` (`n, d > 0`)
under the default round-to-nearest, ties-to-even mode: the 24-bit mantissa
`m` with `2 ^ 23 ≤ m ≤ 2 ^ 24` nearest to `n / d / 2 ^ (e - 23)`, where
`2 ^ e ≤ n / d < 2 ^ (e + 1)`.  The exponent is unbounded, i.e. the normal
range is extended: every value the firmware computes is far from both
binary32 overflow (`2 ^ 128`) and subnormal underflow (`2 ^ (-126)`), where
this model and the hardware agree. -/
def flPos (n d : ℕ) : ℚ :=
  let bn := bits n
  let bd := bits d
  let e : ℤ := if d * 2 ^ bn ≤ n * 2 ^ bd then (bn : ℤ) - bd else (bn : ℤ) - bd - 1
  let s : ℤ := 23 - e
  if 0 ≤ s then mkRat (rnd (n * 2 ^ s.toNat) d : ℤ) (2 ^ s.toNat)
  else ((rnd n (d * 2 ^ (-s).toNat) * 2 ^ (-s).toNat : ℕ) : ℚ)

/-- Binary32 rounding of a rational (sign handled symmetrically, as IEEE
round-to-nearest is an odd function). -/
def fl32 (q : ℚ) : ℚ :=
  if q = 0 then 0
  else if 0 < q then flPos q.num.natAbs q.den
  else -flPos q.num.natAbs q.den

/-- One C `float` multiplication: the exact product of the (exactly held)
operands, rounded once to binary32.  The raw numerator/denominator product
fed to `mkRat` is the exact rational product of the operands. -/
def fmul (x y : ℚ) : ℚ := fl32 (mkRat (x.num * y.num) (x.den * y.den))

/-- Truncation of a C `int` value to `int16_t` (two-s complement). -/
def int16wrap (z : ℤ) : ℤ := (z + 32768) % 65536 - 32768

/-- Specification-side round-half-even on ℚ, used to state what `rnd` (and
through it `flPos`) computes. -/
def RE (x : ℚ) : ℤ :=
  if x - ⌊x⌋ < 1 / 2 then ⌊x⌋
  else if 1 / 2 < x - ⌊x⌋ then ⌊x⌋ + 1
  else if ⌊x⌋ % 2 = 0 then ⌊x⌋ else ⌊x⌋ + 1

/-- Pulse-processing block of the NormalMode tick (`main.cpp` lines
1091-1176).  `reading` is the value `pcnt_get_counter_value` delivers; the
counter is read at all only when `hasValidUsername` held at line 1044
(`hv`).  On a changed count: `totalDistance_mm = (float)count * wheel_size`
(line 1104), one binary32 product, a new speed sample `wheel_size / dt * 3.6` for `0 < dt <
5000 ms` (else 0) enters the 5-slot ring buffer and the reported speed is
the mean of the valid slots (lines 1107-1141); then the pulse timestamps
are refreshed and `display_Data` runs (line 1151). -/
def pulsePhase (reading : ℤ) (now : ℕ) (hv : Bool) (g : DeviceState) : DeviceState :=
  if hv then
    let g := { g with currentPulseCount := reading, hwCount := reading }
    if g.currentPulseCount ≠ g.lastPulseCount then
      let g := { g with totalDistance_mm := fmul (g.currentPulseCount : ℚ) g.wheel_size }
      let g :=
        if 0 < g.previousPulseTime then
          let timeSinceLastPulse_ms := now - g.previousPulseTime
          let newSpeed : ℚ :=
            if 0 < timeSinceLastPulse_ms ∧ timeSinceLastPulse_ms < SPEED_TIMEOUT_MS then
              g.wheel_size / (timeSinceLastPulse_ms : ℚ) * (18 / 5)   -- * 3.6
            else 0
          let hist := g.speedHistory.set g.speedHistoryIndex newSpeed
          let idx := (g.speedHistoryIndex + 1) % 5
          let cnt : ℕ := if g.speedHistoryCount < 5 then g.speedHistoryCount + 1
                         else g.speedHistoryCount
          let avg := (hist.take cnt).sum / (cnt : ℚ)
          { g with speedHistory := hist, speedHistoryIndex := idx,
                   speedHistoryCount := cnt, currentSpeed_kmh := avg }
        else g
      let g := { g with previousPulseTime := now, lastPulseCount := g.currentPulseCount,
                        lastPulseTime := now }
      display_Data now g
    else g
  else g

/-- `sendDataToServer` (`main.cpp` lines 1768-1885): returns `-2` on missing
configuration, `-1` without WiFi, otherwise the HTTP status of the POST
(`oracleCode`, which is negative for transport errors). -/
def sendDataToServer (oracleCode : ℤ) (g : DeviceState) : ℤ :=
  if g.serverUrl = "" ∨ g.wifi_ssid = "" then -2
  else if g.wifiConnected = false then -1
  else oracleCode

/-- Result of the send/backoff block: updated state plus whether an
`/api/update-data` POST resp. a retry user-id POST was actually issued. -/
structure SendPhaseOut where
  state : DeviceState
  dataSendIssued : Bool
  probeIssued : Bool
  deriving Repr, DecidableEq

/-- Data-send / backoff-retry block of the NormalMode tick (`main.cpp` lines
1219-1365).  With a valid username and an elapsed send interval, the interval
distance and speed are derived and, when distance was covered, the data POST
is made: 2xx clears both error states and commits the send, `-1` (no WiFi)
changes nothing, other codes arm the backoff and 401/403 set the API-key
error flag.  Without a valid username, once the 60 s backoff has elapsed a
user-id query probes whether the server accepts requests again. -/
def sendPhase (sendCode : ℤ) (probeResp : UserResp) (now : ℕ) (hv : Bool)
    (g : DeviceState) : SendPhaseOut :=
  if g.testActive = false ∧ hv = true ∧ g.sendInterval_sec * 1000 ≤ now - g.lastDataSendTime then
    let pulsesInInterval := int16wrap (g.currentPulseCount - g.pulsesAtLastSend)
    let g := { g with distanceInInterval_mm := fmul (pulsesInInterval : ℚ) g.wheel_size }
    let g := { g with speed_kmh := g.distanceInInterval_mm / (g.sendInterval_sec : ℚ) * (9 / 2500) }  -- * 0.0036
    if 0 < g.distanceInInterval_mm then
      let issued := if g.serverUrl = "" ∨ g.wifi_ssid = "" then false else g.wifiConnected
      let responseCode := sendDataToServer sendCode g
      let g :=
        if 0 < responseCode ∧ responseCode < 300 then
          { g with lastDataSendTime := now, pulsesAtLastSend := g.currentPulseCount,
                   lastSentIdTag := g.idTag, lastServerErrorTime := 0,
                   apiKeyErrorActive := false }
        else if responseCode = -1 then g
        else
          let g := { g with lastServerErrorTime := now }
          if responseCode = 401 ∨ responseCode = 403 then { g with apiKeyErrorActive := true }
          else g
      ⟨{ g with lastDataSendTime := now }, issued, false⟩
    else ⟨{ g with lastDataSendTime := now }, false, false⟩
  else if g.testActive = false ∧ hv = false ∧ g.sendInterval_sec * 1000 ≤ now - g.lastDataSendTime then
    if g.lastServerErrorTime = 0 ∨ serverErrorBackoffInterval ≤ now - g.lastServerErrorTime then
      if g.wifiConnected = true then
        let out := getUserIdFromTag probeResp now g
        ⟨{ applyUsernameResult out with lastDataSendTime := now }, false, out.issued⟩
      else ⟨{ g with lastDataSendTime := now }, false, false⟩
    else ⟨{ g with lastDataSendTime := now }, false, false⟩
  else ⟨g, false, false⟩

/-- Periodic config-fetch block of the NormalMode tick (`main.cpp` lines
1178-1217): runs only with WiFi up and no active API-key error, on first
start or when the fetch interval elapsed. -/
def periodicFetchPhase (resp : FetchResp) (apiTest : HttpOutcome) (now : ℕ)
    (g : DeviceState) : DeviceState :=
  if 0 < g.configFetchInterval_sec then
    if g.wifiConnected = true ∧ g.apiKeyErrorActive = false then
      let elapsed_ms := if g.lastConfigFetchTime = 0 then 0 else now - g.lastConfigFetchTime
      let shouldFetch := g.lastConfigFetchTime = 0 ∨ g.configFetchInterval_sec * 1000 ≤ elapsed_ms
      if shouldFetch then
        let r := fetchDeviceConfig resp apiTest g.wifiConnected g
        if r.1 then { r.2 with lastConfigFetchTime := now } else r.2
      else g
    else g
  else g

/-! ## Network session management (`connectToWiFi`, reconnect policy) -/

/-- A network request actually issued by the firmware. -/
inductive NetEvent where
  | reportConfig | fetchConfig | firmwareCheck | firmwareDownload
  | heartbeat | userQuery | dataSend
  deriving Repr, DecidableEq, BEq

/-- Whether a list of issued requests includes the user-id query. -/
def hasUserQuery : List NetEvent → Bool
  | [] => false
  | e :: rest => if e = NetEvent.userQuery then true else hasUserQuery rest

/-- Transport outcomes consumed during one `connectToWiFi` call. -/
structure ConnectOracle where
  connectOk : Bool := false            -- WL_CONNECTED within the 20 polls
  reportOk : Bool := false             -- reportDeviceConfig result
  fetchResp : FetchResp := .conn
  fetchApiTest : HttpOutcome := .conn
  fwUpdateAvailable : Bool := false    -- checkFirmwareUpdate result
  fwDownloadOk : Bool := false         -- downloadFirmware success (restarts)
  userResp : UserResp := .conn
  deriving Repr, DecidableEq

/-- Tail of the success path of `connectToWiFi` (`main.cpp` lines
1588-1672): heartbeat at first start only (not on wake-from-sleep sessions,
line 1592), then the username query for the active tag; its non-empty result
is assigned to `username` (line 1646). -/
def connectTail (o : ConnectOracle) (now : ℕ) (wakeupExt0 : Bool) (g : DeviceState)
    (evs : List NetEvent) : DeviceState × List NetEvent :=
  let evs := evs ++ (if wakeupExt0 = false ∧ g.serverUrl ≠ "" then [NetEvent.heartbeat] else [])
  if g.idTag ≠ "" ∧ g.wifiConnected = true then
    let out := getUserIdFromTag o.userResp now g
    let g2 := if out.result ≠ "" then { out.state with username := out.result } else out.state
    (g2, evs ++ (if out.issued then [NetEvent.userQuery] else []))
  else (g, evs)

/-- Firmware-check segment of the success path of `connectToWiFi`
(`main.cpp` lines 1563-1586), followed by `connectTail`: the version check
runs, and when an update is advertised the download follows — restarting the
device on success, otherwise execution continues with the tail. -/
def connectAfterFetch (o : ConnectOracle) (now : ℕ) (wakeupExt0 : Bool)
    (g : DeviceState) (evs : List NetEvent) : DeviceState × List NetEvent :=
  let evs := evs ++ (if g.serverUrl ≠ "" then [NetEvent.firmwareCheck] else [])
  let updateAvailable := if g.serverUrl = "" then false else o.fwUpdateAvailable
  if updateAvailable then
    let evs := evs ++ [NetEvent.firmwareDownload]
    if o.fwDownloadOk then ({ g with restarted := true }, evs)
    else connectTail o now wakeupExt0 g evs
  else connectTail o now wakeupExt0 g evs

/-- `connectToWiFi` (`main.cpp` lines 1450-1751), with the network requests
it issues listed in source order.  On success: attempt counter reset, config
report (line 1535), config fetch (line 1546, only when the report
succeeded), then `connectAfterFetch` (firmware check/download, heartbeat at
first start, username query).  On failure the attempt counter is
incremented. -/
def connectToWiFi (o : ConnectOracle) (now : ℕ) (wakeupExt0 : Bool) (g : DeviceState) :
    DeviceState × List NetEvent :=
  let g := { g with wifiConnected := o.connectOk }
  if o.connectOk then
    let g := { g with wifiConnectAttempts := 0 }
    -- reportDeviceConfig (line 1535); POST issued iff a server URL is set
    let evs := if g.serverUrl ≠ "" then [NetEvent.reportConfig] else []
    let configReported := if g.serverUrl = "" then false else o.reportOk
    if configReported then
      let r := fetchDeviceConfig o.fetchResp o.fetchApiTest g.wifiConnected g
      let g2 := if r.1 then { r.2 with lastConfigFetchTime := now } else r.2
      connectAfterFetch o now wakeupExt0 g2
        (evs ++ (if g.serverUrl ≠ "" then [NetEvent.fetchConfig] else []))
    else connectAfterFetch o now wakeupExt0 g evs
  else
    ({ g with wifiConnectAttempts := g.wifiConnectAttempts + 1 }, [])

/-- WiFi monitoring branch of the NormalMode tick (`main.cpp` lines
1046-1079): while disconnected, `connectToWiFi()` is invoked on every pass as
long as fewer than 3 attempts have failed — there is no time-based gate (the
`RECONNECT_INTERVAL_MS` constant declared at line 161 is never read).  When
connected, a positive attempt counter is reset to 0.  Also returns whether a
reconnection attempt was made and the requests it issued. -/
def reconnectPhase (o : ConnectOracle) (now : ℕ) (wakeupExt0 : Bool) (g : DeviceState) :
    DeviceState × Bool × List NetEvent :=
  if g.wifiConnected = false then
    if g.wifiConnectAttempts < 3 then
      let r := connectToWiFi o now wakeupExt0 g
      (r.1, true, r.2)
    else (g, false, [])
  else
    let g := if 0 < g.wifiConnectAttempts then { g with wifiConnectAttempts := 0 } else g
    (g, false, [])

/-! ## Identity resolver and tick composition -/

/-- Rider-change block of the NormalMode tick (`main.cpp` lines 976-1040):
when the active `idTag` is non-empty and differs from `lastSentIdTag`, the
counters are reset and `lastSentIdTag` is immediately set to the new tag in
the same pass, then (given WiFi and no API-key error) the display name is
queried.  Also returns whether a user-id POST was issued here. -/
def riderChangePhase (userResp : UserResp) (now : ℕ) (g : DeviceState) :
    DeviceState × Bool :=
  if g.idTag ≠ "" ∧ g.idTag ≠ g.lastSentIdTag then
    let g := resetDistanceCounters g
    let g := { g with lastSentIdTag := g.idTag }
    if g.wifiConnected = true ∧ g.apiKeyErrorActive = false then
      let out := getUserIdFromTag userResp now g
      (applyUsernameResult out, out.issued)
    else (g, false)
  else (g, false)

/-- How a pass through `loop()` ends: fall through to the next pass, enter
deep sleep, or restart (completed firmware update). -/
inductive TickOutcome where
  | next (g : DeviceState)
  | sleep (g : DeviceState)
  | restart (g : DeviceState)
  deriving Repr, DecidableEq

/-- Sleep decision of the deep-sleep block (`main.cpp` lines 1391-1434): with
the sensor line idle (HIGH) the device suspends; otherwise the decision is
deferred by refreshing `lastPulseTime`. -/
def deepSleepDecide (sensorHigh : Bool) (now : ℕ) (g : DeviceState) : TickOutcome :=
  if sensorHigh then .sleep g else .next { g with lastPulseTime := now }

/-- Deep-sleep block of the NormalMode tick (`main.cpp` lines 1367-1435):
armed when a non-zero sleep timeout elapsed since the last pulse; with WiFi
up a final firmware check runs first (a successful download restarts, a
failed one ends the pass without sleeping, line 1387). -/
def deepSleepPhase (fwUpdateAvailable fwDownloadOk sensorHigh : Bool) (now : ℕ)
    (g : DeviceState) : TickOutcome :=
  if 0 < g.deepSleepTimeout_sec ∧ g.deepSleepTimeout_sec * 1000 ≤ now - g.lastPulseTime
      ∧ g.deepSleepOn = true then
    if g.wifiConnected = true then
      let upd := if g.serverUrl = "" then false else fwUpdateAvailable
      if upd then
        if fwDownloadOk then .restart { g with restarted := true }
        else .next g
      else deepSleepDecide sensorHigh now g
    else deepSleepDecide sensorHigh now g
  else .next g

/-- All transport/hardware inputs consumed by one NormalMode pass. -/
structure TickOracle where
  rfidTag : Option String := none      -- UID read by the RFID poll, if any
  userResp : UserResp := .conn         -- response for the rider-change query
  connect : ConnectOracle := {}
  fetchResp : FetchResp := .conn       -- periodic config fetch
  fetchApiTest : HttpOutcome := .conn
  sendCode : ℤ := 0                    -- HTTP status of the data POST
  probeResp : UserResp := .conn        -- response for the backoff retry query
  newPulses : ℕ := 0                   -- pulses counted by the PCNT since last read
  fwUpdateAvailable : Bool := false    -- pre-sleep firmware check
  fwDownloadOk : Bool := false
  sensorHigh : Bool := true            -- digitalRead(SENSOR_PIN) == HIGH
  wakeupExt0 : Bool := false           -- esp_sleep_get_wakeup_cause() == EXT0
  deriving Repr, DecidableEq

/-- Which requests a pass issued (for the suppression properties). -/
structure TickTrace where
  dataSendIssued : Bool := false
  tagQueryIssued : Bool := false
  connectQueryIssued : Bool := false
  probeIssued : Bool := false
  reconnectAttempted : Bool := false
  deriving Repr, DecidableEq

/-- State after the RFID poll and the rider-change block of a NormalMode
pass (`main.cpp` lines 737-1040), with the issued-query flag. -/
def tickAfterRider (o : TickOracle) (now : ℕ) (g : DeviceState) : DeviceState × Bool :=
  riderChangePhase o.userResp now (rfidHandler o.rfidTag g)

/-- State after the WiFi-monitoring block (`main.cpp` through line 1079):
this is the state the pulse-processing block receives. -/
def tickBeforePulse (o : TickOracle) (now : ℕ) (g : DeviceState) : DeviceState :=
  (reconnectPhase o.connect now o.wakeupExt0 (tickAfterRider o now g).1).1

/-- One NormalMode pass through `loop()` (`main.cpp` lines 735-1437, `else`
branch of the `configMode` test): RFID poll, rider-change handling,
`hasValidUsername` (line 1044, evaluated before the WiFi block), WiFi
monitoring/reconnect, pulse processing (the counter is read as the hardware
register value plus the pulses since the last read), periodic config fetch,
send/backoff block, deep-sleep decision. -/
def normalTick (o : TickOracle) (now : ℕ) (g : DeviceState) : TickOutcome × TickTrace :=
  let r1 := tickAfterRider o now g
  let hv := hasValidUsername r1.1
  let r2 := reconnectPhase o.connect now o.wakeupExt0 r1.1
  let g2 := r2.1
  let cq : Bool := hasUserQuery r2.2.2
  let trace0 : TickTrace :=
    { tagQueryIssued := r1.2, reconnectAttempted := r2.2.1, connectQueryIssued := cq }
  if g2.restarted then (.restart g2, trace0)
  else
    let reading : ℤ := g2.hwCount + (o.newPulses : ℤ)
    let g3 := pulsePhase reading now hv g2
    let g4 := periodicFetchPhase o.fetchResp o.fetchApiTest now g3
    let s := sendPhase o.sendCode o.probeResp now hv g4
    let out := deepSleepPhase o.fwUpdateAvailable o.fwDownloadOk o.sensorHigh now s.state
    (out, { trace0 with dataSendIssued := s.dataSendIssued, probeIssued := s.probeIssued })

/-! ## Configuration reload and ConfigMode timeout (`main.cpp`) -/

/-- `RECONNECT_INTERVAL_MS` (`main.cpp` line 161).  Declared in the source
but never read by any code path. -/
def RECONNECT_INTERVAL_MS : ℕ := 30000

/-- Malformed-URL test of `getPreferences` (`main.cpp` lines 2320-2339):
`serverUrl.indexOf(pat) >= 0` for the four doubled-scheme patterns. -/
def malformedServerUrl (s : String) : Bool :=
  decide ("http://http".data <:+: s.data) || decide ("https://http".data <:+: s.data) ||
  decide ("http://https".data <:+: s.data) || decide ("https://https".data <:+: s.data)

/-- `getPreferences` (`main.cpp` lines 2181-2376): loads the configuration
from NVS into the globals, applying build-flag fallbacks (written back to
NVS), the `idTag` → `default_id_tag` legacy-key migration, the
`sendInterval` 0 → 30 fallback, malformed-URL sanitation, deep-sleep
enable/disable, and test-value initialisation; `lastSentIdTag` is cleared
(line 2247) and `lastConfigFetchTime` reset (line 2287). -/
def getPreferences (f : BuildFlags) (g : DeviceState) : DeviceState :=
  let nvs := g.nvs
  let debugEnabled := nvs.debugEnabled.getD g.debugEnabled
  let wifi_ssid := nvs.wifi_ssid.getD ""
  let wifi_password := nvs.wifi_password.getD ""
  let dn : String × Nvs :=
    let deviceName := nvs.deviceName.getD ""
    match f.defaultDeviceName with
    | some d => if deviceName = "" then (d, { nvs with deviceName := some d })
                else (deviceName, nvs)
    | none => (deviceName, nvs)
  let deviceName := dn.1
  let nvs := dn.2
  let t1 : String × Nvs :=
    let defaultIdTag := nvs.default_id_tag.getD ""
    if defaultIdTag = "" then
      let legacy := nvs.idTag.getD ""
      if legacy ≠ "" then (legacy, { nvs with default_id_tag := some legacy })
      else ("", nvs)
    else (defaultIdTag, nvs)
  let nvs := t1.2
  let t2 : String × Nvs :=
    match f.defaultIdTag with
    | some d => if t1.1 = "" then (d, { nvs with default_id_tag := some d })
                else (t1.1, nvs)
    | none => (t1.1, nvs)
  let idTag := t2.1
  let nvs := t2.2
  let wheel_size : ℚ := nvs.wheel_size.getD 2075
  let serverUrl := nvs.serverUrl.getD ""
  let apiKey := nvs.apiKey.getD ""
  let s1 : ℕ × Nvs :=
    let si := nvs.sendInterval.getD 30
    if si = 0 then (30, { nvs with sendInterval := some 30 }) else (si, nvs)
  let sendInterval_sec := s1.1
  let nvs := s1.2
  let ledEnabled := nvs.ledEnabled.getD true
  let deepSleepTimeout_sec := nvs.deep_sleep.getD g.deepSleepTimeout_sec
  let configFetchInterval_sec := nvs.cfg_fetch_int.getD g.configFetchInterval_sec
  let u1 : String × Nvs :=
    match f.defaultServerUrl with
    | some d => if serverUrl = "" then (d, { nvs with serverUrl := some d })
                else (serverUrl, nvs)
    | none => (serverUrl, nvs)
  let nvs := u1.2
  let k1 : String × Nvs :=
    match f.defaultApiKey with
    | some d => if apiKey = "" then (d, { nvs with apiKey := some d }) else (apiKey, nvs)
    | none => (apiKey, nvs)
  let apiKey := k1.1
  let nvs := k1.2
  let u2 : String × Nvs :=
    if u1.1 ≠ "" ∧ malformedServerUrl u1.1 = true then
      let nvs := { nvs with serverUrl := none }
      match f.defaultServerUrl with
      | some d => (d, nvs)
      | none => ("", nvs)
    else (u1.1, nvs)
  let serverUrl := u2.1
  let nvs := u2.2
  let testActive := nvs.testModeEnabled.getD false
  let testDistance : ℚ := nvs.testDistance.getD (1 / 100)
  let testInterval_sec := nvs.testInterval.getD 5
  let nvs := if nvs.testDistance = none then { nvs with testDistance := some testDistance }
             else nvs
  let nvs := if nvs.testInterval = none then { nvs with testInterval := some testInterval_sec }
             else nvs
  { g with nvs := nvs, debugEnabled := debugEnabled, wifi_ssid := wifi_ssid,
           wifi_password := wifi_password, deviceName := deviceName,
           idTag := idTag, lastSentIdTag := "",
           wheel_size := wheel_size, serverUrl := serverUrl, apiKey := apiKey,
           sendInterval_sec := sendInterval_sec, ledEnabled := ledEnabled,
           deepSleepTimeout_sec := deepSleepTimeout_sec,
           deepSleepOn := decide (deepSleepTimeout_sec ≠ 0),
           configFetchInterval_sec := configFetchInterval_sec, lastConfigFetchTime := 0,
           testActive := testActive, testDistance := testDistance,
           testInterval_sec := testInterval_sec }

/-- Critical-field re-check of the ConfigMode timeout branch (`main.cpp`
lines 823-847), over freshly read NVS values: WiFi SSID non-empty, default
rider id non-empty (legacy `idTag` key and the `DEFAULT_ID_TAG` build flag
as fallbacks), the stored wheel size not equal to `0.0`, and the stored send
interval non-zero.  The server URL and API key are not re-checked in this
branch. -/
def stillMissingCritical (f : BuildFlags) (nvs : Nvs) : Bool :=
  let currentWifiSsid := nvs.wifi_ssid.getD ""
  let currentDefaultIdTag := nvs.default_id_tag.getD ""
  let currentDefaultIdTag :=
    if currentDefaultIdTag = "" then nvs.idTag.getD "" else currentDefaultIdTag
  let currentDefaultIdTag :=
    if currentDefaultIdTag = "" then
      match f.defaultIdTag with
      | some d => d
      | none => ""
    else currentDefaultIdTag
  let currentWheelSize : ℚ := nvs.wheel_size.getD 2075
  let currentSendInterval : ℕ := nvs.sendInterval.getD 0
  decide (currentWifiSsid = "" ∨ currentDefaultIdTag = "" ∨ currentWheelSize = 0 ∨
    currentSendInterval = 0)

/-- Timeout-exit branch of the ConfigMode part of `loop()` (`main.cpp` lines
820-918).  On expiry of the timeout, the critical fields are re-checked: if
one is still missing the timeout clock is reset and the device stays in
ConfigMode; otherwise the config server and the AP are stopped, ConfigMode
ends, the config store is reloaded (`getPreferences`), WiFi is connected and
`lastSentIdTag` is cleared.  `wakeupExt0 = false` inside `connectToWiFi`:
ConfigMode is only entered on non-sensor wakeups (line 561). -/
def configTimeoutStep (f : BuildFlags) (co : ConnectOracle) (now : ℕ)
    (g : DeviceState) : DeviceState :=
  if g.configModeTimeout_sec * 1000 ≤ now - g.configModeStartTime then
    if stillMissingCritical f g.nvs then
      { g with configModeStartTime := now }
    else
      let g := { g with idTagAtConfigStartInitialized := false }
      let g := { g with serverRunning := false }
      let g := { g with apActive := false }
      let g := { g with configMode := false }
      let g := getPreferences f g
      let g := (connectToWiFi co now false g).1
      { g with lastSentIdTag := "" }
  else g

/-- Wake-from-deep-sleep path of `setup()` (`main.cpp` lines 631-677):
`connectToWiFi` (which itself reports, fetches and checks firmware), then —
if connected — the heartbeat, then the config fetch, after whose success the
default rider id is restored from NVS (lines 652-664). -/
def setupWakeFromSleep (co : ConnectOracle) (wakeFetchResp : FetchResp)
    (wakeApiTest : HttpOutcome) (now : ℕ) (g : DeviceState) :
    DeviceState × List NetEvent :=
  let r := connectToWiFi co now true g
  let g := r.1
  let evs := r.2
  if g.restarted then (g, evs)
  else if g.wifiConnected = true then
    -- sendHeartbeat (line 643); POST issued iff a server URL is set
    let evs := evs ++ (if g.serverUrl ≠ "" then [NetEvent.heartbeat] else [])
    if 0 < g.configFetchInterval_sec then
      let fetchIssued := g.serverUrl ≠ ""
      let fr := fetchDeviceConfig wakeFetchResp wakeApiTest g.wifiConnected g
      let evs := evs ++ (if fetchIssued then [NetEvent.fetchConfig] else [])
      if fr.1 then
        let g := { fr.2 with lastConfigFetchTime := now }
        let defaultIdTag := (g.nvs.default_id_tag).getD ""
        let defaultIdTag := if defaultIdTag = "" then (g.nvs.idTag).getD "" else defaultIdTag
        let g := if defaultIdTag ≠ "" then { g with idTag := defaultIdTag, idTagFromRFID := false }
                 else g
        (g, evs)
      else (fr.2, evs)
    else (g, evs)
  else (g, evs)

/-! ## Small helpers and spec-side (claim-side) definitions -/

/-- Distance formula of the pulse engine (`main.cpp` lines 1104 and
1227-1229): pulses times wheel circumference, in millimetres. -/
def distance (c : ℤ) (w : ℚ) : ℚ := (c : ℚ) * w

/-- The state carried by a tick outcome. -/
def TickOutcome.state : TickOutcome → DeviceState
  | .next g => g
  | .sleep g => g
  | .restart g => g

/-- Whether a user-id response is an HTTP 200 carrying a `user_id` key (the
only response shape that clears the error flags). -/
def isOk200UserId : UserResp → Bool
  | .http code (.userId _) => code = 200
  | _ => false

/-- SPEC-SIDE definition (claim C1 wording), for comparison with
`stillMissingCritical`: the claim re-validates WiFi SSID non-empty, default
rider id non-empty, wheel size within `[500, 3000]` mm, send interval `> 0`,
and server URL / API key when no build-time default exists. -/
def specCriticalMissingC1 (f : BuildFlags) (nvs : Nvs) : Bool :=
  let ssid := nvs.wifi_ssid.getD ""
  let rider := nvs.default_id_tag.getD ""
  let rider := if rider = "" then nvs.idTag.getD "" else rider
  let rider := if rider = "" then f.defaultIdTag.getD "" else rider
  let wheel : ℚ := nvs.wheel_size.getD 2075
  let interval : ℕ := nvs.sendInterval.getD 0
  let url := nvs.serverUrl.getD ""
  let key := nvs.apiKey.getD ""
  decide (ssid = "" ∨ rider = "" ∨ wheel < 500 ∨ 3000 < wheel ∨ interval = 0 ∨
    (f.defaultServerUrl = none ∧ url = "") ∨ (f.defaultApiKey = none ∧ key = ""))

/-- SPEC-SIDE definition (claim C8 wording): the heartbeat precedes every
config fetch of the session — no `fetchConfig` event occurs before the first
`heartbeat` event. -/
def heartbeatBeforeAnyFetch (evs : List NetEvent) : Bool :=
  !((evs.takeWhile (fun e => !(e == NetEvent.heartbeat))).contains NetEvent.fetchConfig)

/-! ## Concrete states used by witnesses and counterexamples -/

/-- NVS contents with a stored wheel size of 100 mm (non-zero, but outside
the valid range 500-3000 mm) and no stored server URL / API key. -/
def nvsWheel100 : Nvs :=
  { wifi_ssid := some "mynet", default_id_tag := some "rider1",
    wheel_size := some 100, sendInterval := some 30 }

/-- Device sitting in ConfigMode over `nvsWheel100`, timeout started at 0. -/
def cfgWheel100 : DeviceState :=
  { nvs := nvsWheel100, configMode := true, configModeForced := true,
    configModeStartTime := 0, serverRunning := true, apActive := true }

/-- Device sitting in ConfigMode over an empty NVS (critical fields
missing). -/
def cfgEmpty : DeviceState :=
  { configMode := true, configModeForced := true, configModeStartTime := 0,
    serverRunning := true, apActive := true }

/-- NormalMode state with an active API-key error whose backoff was armed at
`millis() = 5`. -/
def stApiKeyErr : DeviceState :=
  { idTag := "tag1", lastSentIdTag := "tag1", username := "Alice",
    wifi_ssid := "mynet", serverUrl := "http://srv", apiKey := "k",
    wifiConnected := true, apiKeyErrorActive := true, lastServerErrorTime := 5 }

/-- NormalMode state idle (no pulse) since `millis() = 1000`, with a stale
smoothed speed of 12 km/h and three samples in the ring buffer.  Deep sleep
and periodic fetch are disabled, the send interval has not elapsed. -/
def stIdleSpeed : DeviceState :=
  { username := "Alice", idTag := "tag1", lastSentIdTag := "tag1",
    wifi_ssid := "mynet", serverUrl := "http://srv", apiKey := "k",
    wifiConnected := true,
    lastPulseTime := 1000, previousPulseTime := 1000,
    currentSpeed_kmh := 12, speedHistory := [10, 12, 14, 0, 0],
    speedHistoryIndex := 3, speedHistoryCount := 3,
    hwCount := 7, currentPulseCount := 7, lastPulseCount := 7,
    totalDistance_mm := 14525,
    lastDataSendTime := 19000,
    deepSleepTimeout_sec := 0, deepSleepOn := false,
    configFetchInterval_sec := 0 }

/-- `stIdleSpeed` with 40 pulses accumulated under the default rider
(spec scenario 2 input). -/
def stRider40 : DeviceState :=
  { stIdleSpeed with
      hwCount := 40, currentPulseCount := 40, lastPulseCount := 40,
      totalDistance_mm := 83000,
      lastSentIdTag := "default123", idTag := "default123" }

/-- Fully configured state about to wake from deep sleep. -/
def stWake : DeviceState :=
  { idTag := "rider1", wifi_ssid := "mynet", serverUrl := "http://srv",
    apiKey := "k", username := "" }

/-- Transport outcomes of a plain successful connect: association, report
and fetch succeed (the fetch carries no config object), no firmware update
is advertised, the rider-name query returns a name. -/
def okConnect : ConnectOracle :=
  { connectOk := true, reportOk := true,
    fetchResp := .http 200 (.payload true none),
    userResp := .http 200 (.userId "Alice") }

/-! ## Properties of the binary32 rounding model -/

theorem bitsAux_zero (fuel : ℕ) : bitsAux fuel 0 = 0 := by
  cases fuel <;> rfl

theorem bitsAux_spec (fuel : ℕ) : ∀ n : ℕ, 0 < n → n ≤ fuel →
    2 ^ (bitsAux fuel n - 1) ≤ n ∧ n < 2 ^ bitsAux fuel n := by
  induction fuel with
  | zero => intro n h1 h2; omega
  | succ fuel ih =>
      intro n h1 h2
      rw [bitsAux]
      rw [if_neg (by omega)]
      by_cases hn : n = 1
      · subst hn
        simp [bitsAux_zero]
      · have hrec := ih (n / 2) (by omega) (by omega)
        set b := bitsAux fuel (n / 2) with hb
        have hb1 : 1 ≤ b := by
          rcases hrec with ⟨-, h⟩
          by_contra hcon
          interval_cases b <;> omega
        refine ⟨?_, ?_⟩
        · have h := hrec.1
          have hp : (2 : ℕ) ^ (b + 1 - 1) = 2 ^ (b - 1) * 2 := by
            rw [Nat.add_sub_cancel]
            conv_lhs => rw [show b = b - 1 + 1 by omega]
            rw [pow_succ]
          omega
        · have h := hrec.2
          have hp : (2 : ℕ) ^ (b + 1) = 2 ^ b * 2 := pow_succ 2 b
          omega

theorem bits_spec (n : ℕ) (h : 0 < n) : 2 ^ (bits n - 1) ≤ n ∧ n < 2 ^ bits n :=
  bitsAux_spec n n h le_rfl

theorem floor_natCast_div (a b : ℕ) (hb : 0 < b) :
    ⌊(a : ℚ) / b⌋ = ((a / b : ℕ) : ℤ) := by
  have hbq : (0 : ℚ) < b := by exact_mod_cast hb
  rw [Int.floor_eq_iff]
  constructor
  · rw [le_div_iff hbq]
    push_cast
    exact_mod_cast Nat.div_mul_le_self a b
  · rw [div_lt_iff hbq]
    have hlt : a < (a / b + 1) * b := by
      calc a = b * (a / b) + a % b := (Nat.div_add_mod a b).symm
        _ < b * (a / b) + b := by have := Nat.mod_lt a hb; omega
        _ = (a / b + 1) * b := by ring
    push_cast
    exact_mod_cast hlt

theorem fract_natCast_div (a b : ℕ) (hb : 0 < b) :
    (a : ℚ) / b - ((a / b : ℕ) : ℚ) = ((a % b : ℕ) : ℚ) / b := by
  have hbq : (0 : ℚ) < b := by exact_mod_cast hb
  have hmod : b * (a / b) + a % b = a := Nat.div_add_mod a b
  have hq : (b : ℚ) * ((a / b : ℕ) : ℚ) + ((a % b : ℕ) : ℚ) = (a : ℚ) := by
    exact_mod_cast hmod
  field_simp
  linarith

theorem rnd_eq_RE (a b : ℕ) (hb : 0 < b) : (rnd a b : ℤ) = RE ((a : ℚ) / b) := by
  have hbq : (0 : ℚ) < b := by exact_mod_cast hb
  have hfl : ⌊(a : ℚ) / b⌋ = ((a / b : ℕ) : ℤ) := floor_natCast_div a b hb
  have hfr : (a : ℚ) / b - (((a / b : ℕ) : ℤ) : ℚ) = ((a % b : ℕ) : ℚ) / b := by
    push_cast
    exact fract_natCast_div a b hb
  have h1 : ((a % b : ℕ) : ℚ) / b < 1 / 2 ↔ 2 * (a % b) < b := by
    rw [div_lt_div_iff hbq (by norm_num : (0 : ℚ) < 2), one_mul]
    constructor
    · intro h
      have : (a % b) * 2 < b := by exact_mod_cast h
      omega
    · intro h
      have : ((a % b) * 2 : ℕ) < b := by omega
      exact_mod_cast this
  have h2 : (1 : ℚ) / 2 < ((a % b : ℕ) : ℚ) / b ↔ b < 2 * (a % b) := by
    rw [div_lt_div_iff (by norm_num : (0 : ℚ) < 2) hbq, one_mul]
    constructor
    · intro h
      have : b < (a % b) * 2 := by exact_mod_cast h
      omega
    · intro h
      have : (b : ℕ) < (a % b) * 2 := by omega
      exact_mod_cast this
  have h3 : ((a / b : ℕ) : ℤ) % 2 = 0 ↔ (a / b) % 2 = 0 := by omega
  rcases lt_trichotomy (2 * (a % b)) b with hc | hc | hc
  · have hq : rnd a b = a / b := by unfold rnd; rw [if_pos hc]
    have hRE : RE ((a : ℚ) / b) = ((a / b : ℕ) : ℤ) := by
      unfold RE
      rw [hfl, hfr]
      rw [if_pos (h1.mpr hc)]
    rw [hq, hRE]
  · have htie : ((a % b : ℕ) : ℚ) / b = 1 / 2 := by
      rw [div_eq_div_iff (ne_of_gt hbq) (by norm_num : (2 : ℚ) ≠ 0), one_mul]
      exact_mod_cast (by omega : ((a % b) * 2 : ℕ) = b)
    have hq : rnd a b = if (a / b) % 2 = 0 then a / b else a / b + 1 := by
      unfold rnd
      rw [if_neg (by omega), if_neg (by omega)]
    have hRE : RE ((a : ℚ) / b)
        = if ((a / b : ℕ) : ℤ) % 2 = 0 then ((a / b : ℕ) : ℤ) else ((a / b : ℕ) : ℤ) + 1 := by
      unfold RE
      rw [hfl, hfr, htie]
      rw [if_neg (by norm_num), if_neg (by norm_num)]
    rw [hq, hRE]
    by_cases hpar : (a / b) % 2 = 0
    · rw [if_pos hpar, if_pos (h3.mpr hpar)]
    · rw [if_neg hpar, if_neg (fun h => hpar (h3.mp h))]
      push_cast
      ring
  · have hq : rnd a b = a / b + 1 := by
      unfold rnd
      rw [if_neg (by omega), if_pos hc]
    have hRE : RE ((a : ℚ) / b) = ((a / b : ℕ) : ℤ) + 1 := by
      unfold RE
      rw [hfl, hfr]
      rw [if_neg (by rw [not_lt]; exact le_of_lt (h2.mpr hc)), if_pos (h2.mpr hc)]
    rw [hq, hRE]
    push_cast
    ring

theorem RE_bounds (x : ℚ) : x - 1 / 2 ≤ (RE x : ℚ) ∧ (RE x : ℚ) ≤ x + 1 / 2 := by
  have h1 := Int.floor_le x
  have h2 := Int.lt_floor_add_one x
  unfold RE
  repeat' split
  all_goals push_cast
  all_goals constructor <;> linarith

theorem RE_floor_bounds (x : ℚ) : ⌊x⌋ ≤ RE x ∧ RE x ≤ ⌊x⌋ + 1 := by
  unfold RE
  repeat' split
  all_goals omega

theorem RE_intCast (z : ℤ) : RE (z : ℚ) = z := by
  unfold RE
  rw [Int.floor_intCast, sub_self]
  rw [if_pos (by norm_num)]

theorem RE_mono (x y : ℚ) (h : x ≤ y) : RE x ≤ RE y := by
  have hfxy : ⌊x⌋ ≤ ⌊y⌋ := Int.floor_le_floor h
  rcases eq_or_lt_of_le hfxy with heq | hlt
  · have hf : x - (⌊x⌋ : ℚ) ≤ y - (⌊x⌋ : ℚ) := by linarith
    unfold RE
    rw [← heq]
    repeat' split
    all_goals first | omega | linarith
  · have h1 := (RE_floor_bounds x).2
    have h2 := (RE_floor_bounds y).1
    omega

theorem flPos_val (n d : ℕ) (hd : 0 < d) (e : ℤ)
    (he : (if d * 2 ^ bits n ≤ n * 2 ^ bits d then (bits n : ℤ) - bits d
           else (bits n : ℤ) - bits d - 1) = e) :
    flPos n d = (RE ((n : ℚ) / d * 2 ^ (23 - e)) : ℚ) * 2 ^ (e - 23) := by
  unfold flPos
  dsimp only
  rw [he]
  by_cases hs : (0 : ℤ) ≤ 23 - e
  · rw [if_pos hs]
    have hkk : (((23 - e).toNat : ℤ)) = 23 - e := Int.toNat_of_nonneg hs
    set k := (23 - e).toNat with hk
    rw [Rat.mkRat_eq_div]
    rw [rnd_eq_RE (n * 2 ^ k) d hd]
    have harg : ((n * 2 ^ k : ℕ) : ℚ) / d = (n : ℚ) / d * 2 ^ ((23 : ℤ) - e) := by
      rw [← hkk, zpow_natCast]
      push_cast
      ring
    rw [harg]
    have hden : ((2 ^ k : ℕ) : ℚ) = (2 : ℚ) ^ ((23 : ℤ) - e) := by
      rw [← hkk, zpow_natCast]
      push_cast
      ring
    rw [hden, div_eq_mul_inv, ← zpow_neg]
    have hexp : -((23 : ℤ) - e) = e - 23 := by ring
    rw [hexp]
  · rw [if_neg hs]
    have hkk : (((-(23 - e)).toNat : ℤ)) = e - 23 := by
      rw [Int.toNat_of_nonneg (by omega)]
      ring
    set k := (-(23 - e)).toNat with hk
    have hdk : 0 < d * 2 ^ k := by positivity
    have hr := rnd_eq_RE n (d * 2 ^ k) hdk
    have hrq : ((rnd n (d * 2 ^ k) : ℕ) : ℚ)
        = ((RE ((n : ℚ) / ((d * 2 ^ k : ℕ) : ℚ)) : ℤ) : ℚ) := by
      exact_mod_cast hr
    push_cast
    push_cast at hrq
    rw [hrq]
    have harg : (n : ℚ) / ((d : ℚ) * 2 ^ k) = (n : ℚ) / d * 2 ^ ((23 : ℤ) - e) := by
      have h23 : (23 : ℤ) - e = -(k : ℤ) := by omega
      rw [h23, zpow_neg, zpow_natCast]
      have hdq : (d : ℚ) ≠ 0 := by positivity
      have h2q : ((2 : ℚ) ^ k) ≠ 0 := by positivity
      field_simp
    rw [harg]
    have hden : ((2 : ℚ)) ^ k = (2 : ℚ) ^ ((e : ℤ) - 23) := by
      rw [← hkk, zpow_natCast]
    rw [hden]

theorem flPos_bracket (n d : ℕ) (hn : 0 < n) (hd : 0 < d) (e : ℤ)
    (he : (if d * 2 ^ bits n ≤ n * 2 ^ bits d then (bits n : ℤ) - bits d
           else (bits n : ℤ) - bits d - 1) = e) :
    (2 : ℚ) ^ e ≤ (n : ℚ) / d ∧ (n : ℚ) / d < 2 ^ (e + 1) := by
  have hbn := bits_spec n hn
  have hbd := bits_spec d hd
  have hbn1 : 1 ≤ bits n := by
    by_contra hcon
    have h0 : bits n = 0 := by omega
    rw [h0] at hbn
    norm_num at hbn
    omega
  have hbd1 : 1 ≤ bits d := by
    by_contra hcon
    have h0 : bits d = 0 := by omega
    rw [h0] at hbd
    norm_num at hbd
    omega
  have hdq : (0 : ℚ) < d := by exact_mod_cast hd
  have hnq : (0 : ℚ) < n := by exact_mod_cast hn
  have hpow : ∀ a b : ℕ, (2 : ℚ) ^ ((a : ℤ) - b) = ((2 ^ a : ℕ) : ℚ) / ((2 ^ b : ℕ) : ℚ) := by
    intro a b
    rw [zpow_sub₀ (by norm_num : (2 : ℚ) ≠ 0), zpow_natCast, zpow_natCast]
    push_cast
    ring
  by_cases hcmp : d * 2 ^ bits n ≤ n * 2 ^ bits d
  · rw [if_pos hcmp] at he
    subst he
    constructor
    · rw [hpow]
      rw [div_le_div_iff (by positivity) hdq]
      have hc : ((d * 2 ^ bits n : ℕ) : ℚ) ≤ ((n * 2 ^ bits d : ℕ) : ℚ) := by
        exact_mod_cast hcmp
      push_cast at hc
      push_cast
      linarith
    · have he1 : (bits n : ℤ) - bits d + 1 = ((bits n + 1 : ℕ) : ℤ) - bits d := by
        push_cast
        ring
      rw [he1, hpow]
      rw [div_lt_div_iff hdq (by positivity)]
      have hnat : n * 2 ^ bits d < 2 ^ (bits n + 1) * d := by
        have h3 : 2 ^ (bits n + 1) * 2 ^ (bits d - 1) = 2 ^ bits n * 2 ^ bits d := by
          rw [← pow_add, ← pow_add]
          congr 1
          omega
        calc n * 2 ^ bits d
            < 2 ^ bits n * 2 ^ bits d := by
              exact (Nat.mul_lt_mul_right (by positivity)).mpr hbn.2
          _ = 2 ^ (bits n + 1) * 2 ^ (bits d - 1) := h3.symm
          _ ≤ 2 ^ (bits n + 1) * d := Nat.mul_le_mul_left _ hbd.1
      have hc : ((n * 2 ^ bits d : ℕ) : ℚ) < ((2 ^ (bits n + 1) * d : ℕ) : ℚ) := by
        exact_mod_cast hnat
      push_cast at hc
      push_cast
      linarith
  · rw [if_neg hcmp] at he
    subst he
    constructor
    · have he1 : (bits n : ℤ) - bits d - 1 = ((bits n - 1 : ℕ) : ℤ) - bits d := by
        push_cast [hbn1]
        ring
      rw [he1, hpow]
      rw [div_le_div_iff (by positivity) hdq]
      have hnat : 2 ^ (bits n - 1) * d ≤ n * 2 ^ bits d :=
        Nat.mul_le_mul hbn.1 (le_of_lt hbd.2)
      have hc : ((2 ^ (bits n - 1) * d : ℕ) : ℚ) ≤ ((n * 2 ^ bits d : ℕ) : ℚ) := by
        exact_mod_cast hnat
      push_cast at hc
      push_cast
      linarith
    · have he1 : (bits n : ℤ) - bits d - 1 + 1 = (bits n : ℤ) - bits d := by ring
      rw [he1, hpow]
      rw [div_lt_div_iff hdq (by positivity)]
      have hc : ((n * 2 ^ bits d : ℕ) : ℚ) < ((d * 2 ^ bits n : ℕ) : ℚ) := by
        exact_mod_cast Nat.lt_of_not_le hcmp
      push_cast at hc
      push_cast
      linarith

theorem flPos_spec (n d : ℕ) (hn : 0 < n) (hd : 0 < d) :
    ∃ e : ℤ, (2 : ℚ) ^ e ≤ (n : ℚ) / d ∧ (n : ℚ) / d < 2 ^ (e + 1) ∧
      flPos n d = (RE ((n : ℚ) / d * 2 ^ (23 - e)) : ℚ) * 2 ^ (e - 23) := by
  refine ⟨_, (flPos_bracket n d hn hd _ rfl).1, (flPos_bracket n d hn hd _ rfl).2,
    flPos_val n d hd _ rfl⟩

theorem fl32_zero : fl32 0 = 0 := by
  unfold fl32
  rw [if_pos rfl]

theorem fl32_pos_spec (q : ℚ) (hq : 0 < q) :
    ∃ e : ℤ, (2 : ℚ) ^ e ≤ q ∧ q < 2 ^ (e + 1) ∧
      fl32 q = (RE (q * 2 ^ (23 - e)) : ℚ) * 2 ^ (e - 23) := by
  have hnum : 0 < q.num := Rat.num_pos.mpr hq
  have hq_eq : ((q.num.natAbs : ℕ) : ℚ) / (q.den : ℚ) = q := by
    rw [Int.cast_natAbs]
    rw [abs_of_nonneg (le_of_lt hnum)]
    exact Rat.num_div_den q
  have hval : fl32 q = flPos q.num.natAbs q.den := by
    unfold fl32
    rw [if_neg (ne_of_gt hq), if_pos hq]
  obtain ⟨e, h1, h2, h3⟩ := flPos_spec q.num.natAbs q.den
    (Int.natAbs_pos.mpr (ne_of_gt hnum)) q.pos
  rw [hq_eq] at h1 h2 h3
  exact ⟨e, h1, h2, by rw [hval, h3]⟩

theorem fl32_neg (q : ℚ) : fl32 (-q) = -fl32 q := by
  rcases lt_trichotomy q 0 with hq | hq | hq
  · have hnum : (-q).num.natAbs = q.num.natAbs := by
      rw [Rat.neg_num, Int.natAbs_neg]
    have hden : (-q).den = q.den := Rat.neg_den q
    unfold fl32
    rw [if_neg (by intro h; rw [neg_eq_zero] at h; exact absurd h (ne_of_lt hq))]
    rw [if_pos (by linarith)]
    rw [if_neg (ne_of_lt hq), if_neg (by linarith)]
    rw [hnum, hden, neg_neg]
  · rw [hq]
    rw [neg_zero, fl32_zero, neg_zero]
  · have hnum : (-q).num.natAbs = q.num.natAbs := by
      rw [Rat.neg_num, Int.natAbs_neg]
    have hden : (-q).den = q.den := Rat.neg_den q
    unfold fl32
    rw [if_neg (by intro h; rw [neg_eq_zero] at h; exact absurd h (ne_of_gt hq))]
    rw [if_neg (by linarith)]
    rw [if_neg (ne_of_gt hq), if_pos hq]
    rw [hnum, hden]

theorem fl32_pos (q : ℚ) (hq : 0 < q) : 0 < fl32 q := by
  obtain ⟨e, h1, h2, h3⟩ := fl32_pos_spec q hq
  have hx : (2 : ℚ) ^ ((23 : ℤ)) ≤ q * 2 ^ ((23 : ℤ) - e) := by
    calc (2 : ℚ) ^ ((23 : ℤ)) = 2 ^ e * 2 ^ ((23 : ℤ) - e) := by
          rw [← zpow_add₀ (by norm_num : (2 : ℚ) ≠ 0)]
          congr 1
          ring
      _ ≤ q * 2 ^ ((23 : ℤ) - e) := by
          have := zpow_pos (by norm_num : (0 : ℚ) < 2) ((23 : ℤ) - e)
          exact mul_le_mul_of_nonneg_right h1 (le_of_lt this)
  have hRE := (RE_bounds (q * 2 ^ ((23 : ℤ) - e))).1
  have hREpos : (0 : ℚ) < (RE (q * 2 ^ ((23 : ℤ) - e)) : ℚ) := by
    have h23 : (1 : ℚ) ≤ 2 ^ ((23 : ℤ)) := by norm_num
    linarith
  rw [h3]
  have := zpow_pos (by norm_num : (0 : ℚ) < 2) (e - 23)
  positivity

theorem fl32_intCast_pos (z : ℤ) (h0 : 0 < z) (hz : z ≤ 2 ^ 24) : fl32 (z : ℚ) = z := by
  have hq : (0 : ℚ) < z := by exact_mod_cast h0
  obtain ⟨e, h1, h2, h3⟩ := fl32_pos_spec _ hq
  have h2ne : (2 : ℚ) ≠ 0 := by norm_num
  have he0 : 0 ≤ e := by
    by_contra hcon
    push_neg at hcon
    have hle : (2 : ℚ) ^ (e + 1) ≤ 2 ^ (0 : ℤ) := by
      apply zpow_le_zpow_right₀ (by norm_num : (1 : ℚ) ≤ 2)
      omega
    have hz1 : (1 : ℚ) ≤ z := by exact_mod_cast h0
    rw [zpow_zero] at hle
    linarith
  have h24 : (2 : ℚ) ^ (24 : ℤ) = ((2 ^ 24 : ℤ) : ℚ) := by
    rw [show (24 : ℤ) = ((24 : ℕ) : ℤ) from rfl, zpow_natCast]
    push_cast
    ring
  have he24 : e ≤ 24 := by
    by_contra hcon
    push_neg at hcon
    have h25 : (2 : ℚ) ^ (25 : ℤ) ≤ 2 ^ e := by
      apply zpow_le_zpow_right₀ (by norm_num : (1 : ℚ) ≤ 2)
      omega
    have hzq : (z : ℚ) ≤ ((2 ^ 24 : ℤ) : ℚ) := by exact_mod_cast hz
    have h2524 : (2 : ℚ) ^ (25 : ℤ) = 2 * (2 : ℚ) ^ (24 : ℤ) := by
      rw [show (25 : ℤ) = 1 + 24 from rfl, zpow_add₀ h2ne, zpow_one]
    have hpos : (0 : ℚ) < (2 : ℚ) ^ (24 : ℤ) := zpow_pos (by norm_num) _
    rw [h24] at h2524 hpos
    linarith
  rcases lt_or_eq_of_le he24 with he23 | he24eq
  · have ht' : 0 ≤ (23 : ℤ) - e := by omega
    have ht : (((23 - e).toNat : ℤ)) = 23 - e := Int.toNat_of_nonneg ht'
    set t := ((23 : ℤ) - e).toNat with htdef
    have hx : (z : ℚ) * 2 ^ ((23 : ℤ) - e) = ((z * 2 ^ t : ℤ) : ℚ) := by
      push_cast
      rw [← ht, zpow_natCast]
    rw [hx, RE_intCast] at h3
    rw [h3]
    have hsplit : ((z * 2 ^ t : ℤ) : ℚ) * 2 ^ (e - 23)
        = (z : ℚ) * (2 ^ ((23 : ℤ) - e) * 2 ^ (e - 23)) := by
      push_cast
      rw [← ht, zpow_natCast]
      ring
    rw [hsplit]
    have hcancel : (2 : ℚ) ^ ((23 : ℤ) - e) * 2 ^ (e - 23) = 1 := by
      rw [← zpow_add₀ h2ne]
      have hzero : (23 : ℤ) - e + (e - 23) = 0 := by ring
      rw [hzero, zpow_zero]
    rw [hcancel, mul_one]
  · subst he24eq
    have hzq : (z : ℚ) = (2 : ℚ) ^ (24 : ℤ) := by
      have hle : (z : ℚ) ≤ ((2 ^ 24 : ℤ) : ℚ) := by exact_mod_cast hz
      rw [← h24] at hle
      linarith
    have h23 : (2 : ℚ) ^ (23 : ℤ) = ((2 ^ 23 : ℤ) : ℚ) := by
      rw [show (23 : ℤ) = ((23 : ℕ) : ℤ) from rfl, zpow_natCast]
      push_cast
      ring
    have hx : (z : ℚ) * 2 ^ ((23 : ℤ) - 24) = ((2 ^ 23 : ℤ) : ℚ) := by
      rw [hzq, ← zpow_add₀ h2ne]
      rw [show (24 : ℤ) + (23 - 24) = 23 from rfl]
      exact h23
    rw [hx, RE_intCast] at h3
    rw [h3, hzq]
    rw [← h23, ← zpow_add₀ h2ne]
    rw [show (23 : ℤ) + (24 - 23) = 24 from rfl]

theorem fl32_intCast (z : ℤ) (hz : z.natAbs ≤ 2 ^ 24) : fl32 (z : ℚ) = z := by
  rcases lt_trichotomy z 0 with hp | hp | hp
  · have h := fl32_intCast_pos (-z) (by omega) (by omega)
    push_cast at h
    rw [fl32_neg] at h
    have hq : fl32 ((z : ℤ) : ℚ) = ((z : ℤ) : ℚ) := by linarith
    exact hq
  · rw [hp]
    push_cast
    exact fl32_zero
  · exact fl32_intCast_pos z hp (by omega)

theorem two_zpow_24 : (2 : ℚ) ^ (24 : ℤ) = ((2 ^ 24 : ℤ) : ℚ) := by
  rw [show (24 : ℤ) = ((24 : ℕ) : ℤ) from rfl, zpow_natCast]
  push_cast
  ring

theorem two_zpow_23 : (2 : ℚ) ^ (23 : ℤ) = ((2 ^ 23 : ℤ) : ℚ) := by
  rw [show (23 : ℤ) = ((23 : ℕ) : ℤ) from rfl, zpow_natCast]
  push_cast
  ring

theorem fl32_err_pos (q : ℚ) (hq : 0 < q) : |fl32 q - q| ≤ q / 2 ^ (24 : ℤ) := by
  obtain ⟨e, h1, h2, h3⟩ := fl32_pos_spec q hq
  have h2ne : (2 : ℚ) ≠ 0 := by norm_num
  set x := q * 2 ^ ((23 : ℤ) - e) with hxdef
  set u := (2 : ℚ) ^ (e - 23) with hudef
  clear_value x u
  have hupos : (0 : ℚ) < u := by rw [hudef]; exact zpow_pos (by norm_num) _
  have hxu : x * u = q := by
    rw [hxdef, hudef, mul_assoc, ← zpow_add₀ h2ne]
    have hzero : (23 : ℤ) - e + (e - 23) = 0 := by ring
    rw [hzero, zpow_zero, mul_one]
  have hREabs : |(RE x : ℚ) - x| ≤ 1 / 2 := by
    have hb := RE_bounds x
    rw [abs_le]
    constructor <;> linarith [hb.1, hb.2]
  calc |fl32 q - q| = |(RE x : ℚ) * u - x * u| := by rw [h3, hxu]
    _ = |(RE x : ℚ) - x| * |u| := by rw [← abs_mul, sub_mul]
    _ = |(RE x : ℚ) - x| * u := by rw [abs_of_pos hupos]
    _ ≤ (1 / 2) * u := mul_le_mul_of_nonneg_right hREabs (le_of_lt hupos)
    _ ≤ q / 2 ^ (24 : ℤ) := by
        have hstep : (1 / 2) * u = 2 ^ (e - 24) := by
          rw [hudef]
          rw [show (1 : ℚ) / 2 = 2 ^ (-1 : ℤ) from by rw [zpow_neg, zpow_one]; norm_num]
          rw [← zpow_add₀ h2ne, show (-1 : ℤ) + (e - 23) = e - 24 from by ring]
        have hstep2 : (2 : ℚ) ^ (e - 24) ≤ q * 2 ^ (-24 : ℤ) := by
          have := mul_le_mul_of_nonneg_right h1
            (le_of_lt (zpow_pos (by norm_num : (0 : ℚ) < 2) (-24 : ℤ)))
          calc (2 : ℚ) ^ (e - 24) = 2 ^ e * 2 ^ (-24 : ℤ) := by
                rw [show e - 24 = e + (-24 : ℤ) from by ring, zpow_add₀ h2ne]
            _ ≤ q * 2 ^ (-24 : ℤ) := this
        have hdiv : q * (2 : ℚ) ^ (-24 : ℤ) = q / 2 ^ (24 : ℤ) := by
          rw [zpow_neg, div_eq_mul_inv]
        rw [← hdiv]
        exact hstep.le.trans hstep2
  
theorem fl32_err (q : ℚ) : |fl32 q - q| ≤ |q| / 2 ^ 24 := by
  have h24 : ((2 : ℚ) ^ (24 : ℤ)) = (2 : ℚ) ^ (24 : ℕ) := by
    rw [show (24 : ℤ) = ((24 : ℕ) : ℤ) from rfl, zpow_natCast]
  rcases lt_trichotomy q 0 with hq | hq | hq
  · have h := fl32_err_pos (-q) (by linarith)
    have heq : fl32 (-q) - (-q) = -(fl32 q - q) := by
      rw [fl32_neg]
      ring
    rw [heq, abs_neg] at h
    rw [← abs_neg q, abs_of_pos (by linarith : (0 : ℚ) < -q)]
    rw [← h24]
    exact h
  · rw [hq, fl32_zero]
    norm_num
  · have h := fl32_err_pos q hq
    rw [abs_of_pos hq, ← h24]
    exact h

theorem fl32_mono_pos (q r : ℚ) (hq : 0 < q) (hqr : q ≤ r) : fl32 q ≤ fl32 r := by
  have hr : 0 < r := lt_of_lt_of_le hq hqr
  obtain ⟨e1, hq1, hq2, hq3⟩ := fl32_pos_spec q hq
  obtain ⟨e2, hr1, hr2, hr3⟩ := fl32_pos_spec r hr
  have h2ne : (2 : ℚ) ≠ 0 := by norm_num
  have he12 : e1 ≤ e2 := by
    by_contra hcon
    push_neg at hcon
    have hle : (2 : ℚ) ^ (e2 + 1) ≤ 2 ^ e1 :=
      zpow_le_zpow_right₀ (by norm_num : (1 : ℚ) ≤ 2) (by omega)
    linarith
  rcases lt_or_eq_of_le he12 with hlt | heq
  · have hx2 : q * 2 ^ ((23 : ℤ) - e1) < 2 ^ (24 : ℤ) := by
      have hm := mul_lt_mul_of_pos_right hq2
        (zpow_pos (by norm_num : (0 : ℚ) < 2) ((23 : ℤ) - e1))
      calc q * 2 ^ ((23 : ℤ) - e1) < 2 ^ (e1 + 1) * 2 ^ ((23 : ℤ) - e1) := hm
        _ = 2 ^ (24 : ℤ) := by
            rw [← zpow_add₀ h2ne]
            congr 1
            ring
    have hREub : RE (q * 2 ^ ((23 : ℤ) - e1)) ≤ 2 ^ 24 := by
      have hb := (RE_bounds (q * 2 ^ ((23 : ℤ) - e1))).2
      have hcast : ((RE (q * 2 ^ ((23 : ℤ) - e1)) : ℤ) : ℚ) < ((2 ^ 24 + 1 : ℤ) : ℚ) := by
        have hz : (2 : ℚ) ^ (24 : ℤ) = (2 : ℚ) ^ (24 : ℕ) := by
          rw [show (24 : ℤ) = ((24 : ℕ) : ℤ) from rfl, zpow_natCast]
        push_cast
        linarith [hb, hx2, hz]
      have hint : RE (q * 2 ^ ((23 : ℤ) - e1)) < 2 ^ 24 + 1 := by exact_mod_cast hcast
      omega
    have hflq : fl32 q ≤ 2 ^ (e1 + 1 : ℤ) := by
      rw [hq3]
      have hupos := zpow_pos (by norm_num : (0 : ℚ) < 2) (e1 - 23)
      calc (RE (q * 2 ^ ((23 : ℤ) - e1)) : ℚ) * 2 ^ (e1 - 23)
          ≤ ((2 ^ 24 : ℤ) : ℚ) * 2 ^ (e1 - 23) := by
            apply mul_le_mul_of_nonneg_right _ (le_of_lt hupos)
            exact_mod_cast hREub
        _ = 2 ^ (e1 + 1 : ℤ) := by
            rw [← two_zpow_24, ← zpow_add₀ h2ne]
            congr 1
            ring
    have hx2lb : (2 : ℚ) ^ (23 : ℤ) ≤ r * 2 ^ ((23 : ℤ) - e2) := by
      have hm := mul_le_mul_of_nonneg_right hr1
        (le_of_lt (zpow_pos (by norm_num : (0 : ℚ) < 2) ((23 : ℤ) - e2)))
      calc (2 : ℚ) ^ (23 : ℤ) = 2 ^ e2 * 2 ^ ((23 : ℤ) - e2) := by
            rw [← zpow_add₀ h2ne]
            congr 1
            ring
        _ ≤ r * 2 ^ ((23 : ℤ) - e2) := hm
    have hRElb : (2 ^ 23 : ℤ) ≤ RE (r * 2 ^ ((23 : ℤ) - e2)) := by
      have hb := (RE_bounds (r * 2 ^ ((23 : ℤ) - e2))).1
      have hcast : ((2 ^ 23 - 1 : ℤ) : ℚ) < ((RE (r * 2 ^ ((23 : ℤ) - e2)) : ℤ) : ℚ) := by
        have hz : (2 : ℚ) ^ (23 : ℤ) = (2 : ℚ) ^ (23 : ℕ) := by
          rw [show (23 : ℤ) = ((23 : ℕ) : ℤ) from rfl, zpow_natCast]
        push_cast
        linarith [hb, hx2lb, hz]
      have hint : (2 ^ 23 - 1 : ℤ) < RE (r * 2 ^ ((23 : ℤ) - e2)) := by exact_mod_cast hcast
      omega
    have hflr : (2 : ℚ) ^ e2 ≤ fl32 r := by
      rw [hr3]
      have hupos := zpow_pos (by norm_num : (0 : ℚ) < 2) (e2 - 23)
      calc (2 : ℚ) ^ e2 = ((2 ^ 23 : ℤ) : ℚ) * 2 ^ (e2 - 23) := by
            rw [← two_zpow_23, ← zpow_add₀ h2ne]
            congr 1
            ring
        _ ≤ (RE (r * 2 ^ ((23 : ℤ) - e2)) : ℚ) * 2 ^ (e2 - 23) := by
            apply mul_le_mul_of_nonneg_right _ (le_of_lt hupos)
            exact_mod_cast hRElb
    have hmid : (2 : ℚ) ^ (e1 + 1 : ℤ) ≤ 2 ^ e2 :=
      zpow_le_zpow_right₀ (by norm_num : (1 : ℚ) ≤ 2) (by omega)
    linarith
  · subst heq
    rw [hq3, hr3]
    apply mul_le_mul_of_nonneg_right
    · have hmx : q * 2 ^ ((23 : ℤ) - e1) ≤ r * 2 ^ ((23 : ℤ) - e1) :=
        mul_le_mul_of_nonneg_right hqr
          (le_of_lt (zpow_pos (by norm_num : (0 : ℚ) < 2) _))
      exact_mod_cast RE_mono _ _ hmx
    · exact le_of_lt (zpow_pos (by norm_num : (0 : ℚ) < 2) _)

theorem fl32_mono (q r : ℚ) (h : q ≤ r) : fl32 q ≤ fl32 r := by
  rcases lt_trichotomy q 0 with hq | hq | hq
  · rcases lt_trichotomy r 0 with hr | hr | hr
    · have hcore := fl32_mono_pos (-r) (-q) (by linarith) (by linarith)
      have h1 := fl32_neg (-q)
      have h2 := fl32_neg (-r)
      rw [neg_neg] at h1 h2
      linarith
    · have h1 := fl32_neg (-q)
      rw [neg_neg] at h1
      have hp := fl32_pos (-q) (by linarith)
      rw [hr, fl32_zero]
      linarith
    · have h1 := fl32_neg (-q)
      rw [neg_neg] at h1
      have hp := fl32_pos (-q) (by linarith)
      have hp2 := fl32_pos r hr
      linarith
  · subst hq
    rw [fl32_zero]
    rcases eq_or_lt_of_le h with hr | hr
    · rw [← hr, fl32_zero]
    · exact le_of_lt (fl32_pos r hr)
  · exact fl32_mono_pos q r hq h

theorem fmul_eq (x y : ℚ) : fmul x y = fl32 (x * y) := by
  unfold fmul
  congr 1
  rw [Rat.mkRat_eq_div]
  push_cast
  rw [← div_mul_div_comm, Rat.num_div_den, Rat.num_div_den]

/-! ## Frame lemmas (fields each operation leaves untouched) -/

theorem applyServerConfig_frame (c : FetchedConfig) (a : HttpOutcome) (w : Bool)
    (g : DeviceState) :
    (applyServerConfig c a w g).username = g.username ∧
    (applyServerConfig c a w g).lastSentIdTag = g.lastSentIdTag ∧
    (applyServerConfig c a w g).apiKeyErrorActive = g.apiKeyErrorActive ∧
    (applyServerConfig c a w g).lastServerErrorTime = g.lastServerErrorTime ∧
    (applyServerConfig c a w g).wifiConnected = g.wifiConnected ∧
    (applyServerConfig c a w g).wifi_ssid = g.wifi_ssid ∧
    (applyServerConfig c a w g).wifiConnectAttempts = g.wifiConnectAttempts ∧
    (applyServerConfig c a w g).totalDistance_mm = g.totalDistance_mm ∧
    (applyServerConfig c a w g).distanceInInterval_mm = g.distanceInInterval_mm ∧
    (applyServerConfig c a w g).pulsesAtLastSend = g.pulsesAtLastSend ∧
    (applyServerConfig c a w g).lastPulseCount = g.lastPulseCount ∧
    (applyServerConfig c a w g).currentPulseCount = g.currentPulseCount ∧
    (applyServerConfig c a w g).hwCount = g.hwCount ∧
    (applyServerConfig c a w g).lastDataSendTime = g.lastDataSendTime ∧
    (applyServerConfig c a w g).lastPulseTime = g.lastPulseTime ∧
    (applyServerConfig c a w g).restarted = g.restarted ∧
    (applyServerConfig c a w g).configMode = g.configMode ∧
    (applyServerConfig c a w g).serverRunning = g.serverRunning ∧
    (applyServerConfig c a w g).apActive = g.apActive := by
  refine ⟨?_, ?_, ?_, ?_, ?_, ?_, ?_, ?_, ?_, ?_, ?_, ?_, ?_, ?_, ?_, ?_, ?_, ?_, ?_⟩ <;> rfl

theorem fetchDeviceConfig_cases (resp : FetchResp) (a : HttpOutcome) (w : Bool)
    (g : DeviceState) :
    (fetchDeviceConfig resp a w g).2 = g ∨
    ∃ c, (fetchDeviceConfig resp a w g).2 = applyServerConfig c a w g := by
  unfold fetchDeviceConfig
  repeat' split
  all_goals first
    | exact Or.inl rfl
    | exact Or.inr ⟨_, rfl⟩

theorem fetchDeviceConfig_frame (resp : FetchResp) (a : HttpOutcome) (w : Bool)
    (g : DeviceState) :
    (fetchDeviceConfig resp a w g).2.username = g.username ∧
    (fetchDeviceConfig resp a w g).2.lastSentIdTag = g.lastSentIdTag ∧
    (fetchDeviceConfig resp a w g).2.apiKeyErrorActive = g.apiKeyErrorActive ∧
    (fetchDeviceConfig resp a w g).2.lastServerErrorTime = g.lastServerErrorTime ∧
    (fetchDeviceConfig resp a w g).2.wifiConnected = g.wifiConnected ∧
    (fetchDeviceConfig resp a w g).2.wifi_ssid = g.wifi_ssid ∧
    (fetchDeviceConfig resp a w g).2.wifiConnectAttempts = g.wifiConnectAttempts ∧
    (fetchDeviceConfig resp a w g).2.totalDistance_mm = g.totalDistance_mm ∧
    (fetchDeviceConfig resp a w g).2.distanceInInterval_mm = g.distanceInInterval_mm ∧
    (fetchDeviceConfig resp a w g).2.pulsesAtLastSend = g.pulsesAtLastSend ∧
    (fetchDeviceConfig resp a w g).2.lastPulseCount = g.lastPulseCount ∧
    (fetchDeviceConfig resp a w g).2.currentPulseCount = g.currentPulseCount ∧
    (fetchDeviceConfig resp a w g).2.hwCount = g.hwCount ∧
    (fetchDeviceConfig resp a w g).2.lastDataSendTime = g.lastDataSendTime ∧
    (fetchDeviceConfig resp a w g).2.lastPulseTime = g.lastPulseTime ∧
    (fetchDeviceConfig resp a w g).2.restarted = g.restarted ∧
    (fetchDeviceConfig resp a w g).2.configMode = g.configMode ∧
    (fetchDeviceConfig resp a w g).2.serverRunning = g.serverRunning ∧
    (fetchDeviceConfig resp a w g).2.apActive = g.apActive := by
  rcases fetchDeviceConfig_cases resp a w g with h | ⟨c, h⟩ <;> rw [h]
  · exact ⟨rfl, rfl, rfl, rfl, rfl, rfl, rfl, rfl, rfl, rfl, rfl, rfl, rfl, rfl, rfl, rfl,
      rfl, rfl, rfl⟩
  · exact applyServerConfig_frame c a w g

theorem getUserIdFromTag_state_frame (r : UserResp) (now : ℕ) (g : DeviceState) :
    (getUserIdFromTag r now g).state.lastSentIdTag = g.lastSentIdTag ∧
    (getUserIdFromTag r now g).state.totalDistance_mm = g.totalDistance_mm ∧
    (getUserIdFromTag r now g).state.distanceInInterval_mm = g.distanceInInterval_mm ∧
    (getUserIdFromTag r now g).state.pulsesAtLastSend = g.pulsesAtLastSend ∧
    (getUserIdFromTag r now g).state.lastPulseCount = g.lastPulseCount ∧
    (getUserIdFromTag r now g).state.currentPulseCount = g.currentPulseCount ∧
    (getUserIdFromTag r now g).state.hwCount = g.hwCount ∧
    (getUserIdFromTag r now g).state.serverUrl = g.serverUrl ∧
    (getUserIdFromTag r now g).state.wifi_ssid = g.wifi_ssid ∧
    (getUserIdFromTag r now g).state.wifiConnected = g.wifiConnected ∧
    (getUserIdFromTag r now g).state.wifiConnectAttempts = g.wifiConnectAttempts ∧
    (getUserIdFromTag r now g).state.restarted = g.restarted ∧
    (getUserIdFromTag r now g).state.configFetchInterval_sec = g.configFetchInterval_sec ∧
    (getUserIdFromTag r now g).state.idTag = g.idTag ∧
    (getUserIdFromTag r now g).state.configMode = g.configMode ∧
    (getUserIdFromTag r now g).state.serverRunning = g.serverRunning ∧
    (getUserIdFromTag r now g).state.apActive = g.apActive := by
  unfold getUserIdFromTag
  repeat' split
  all_goals exact ⟨rfl, rfl, rfl, rfl, rfl, rfl, rfl, rfl, rfl, rfl, rfl, rfl, rfl, rfl,
    rfl, rfl, rfl⟩

theorem applyUsernameResult_frame (out : UserQueryOut) :
    (applyUsernameResult out).lastSentIdTag = out.state.lastSentIdTag ∧
    (applyUsernameResult out).totalDistance_mm = out.state.totalDistance_mm ∧
    (applyUsernameResult out).distanceInInterval_mm = out.state.distanceInInterval_mm ∧
    (applyUsernameResult out).pulsesAtLastSend = out.state.pulsesAtLastSend ∧
    (applyUsernameResult out).lastPulseCount = out.state.lastPulseCount ∧
    (applyUsernameResult out).currentPulseCount = out.state.currentPulseCount ∧
    (applyUsernameResult out).hwCount = out.state.hwCount ∧
    (applyUsernameResult out).serverUrl = out.state.serverUrl ∧
    (applyUsernameResult out).wifi_ssid = out.state.wifi_ssid ∧
    (applyUsernameResult out).wifiConnected = out.state.wifiConnected ∧
    (applyUsernameResult out).wifiConnectAttempts = out.state.wifiConnectAttempts ∧
    (applyUsernameResult out).restarted = out.state.restarted ∧
    (applyUsernameResult out).configFetchInterval_sec = out.state.configFetchInterval_sec ∧
    (applyUsernameResult out).idTag = out.state.idTag ∧
    (applyUsernameResult out).apiKeyErrorActive = out.state.apiKeyErrorActive ∧
    (applyUsernameResult out).lastServerErrorTime = out.state.lastServerErrorTime := by
  unfold applyUsernameResult
  dsimp only
  repeat' split
  all_goals exact ⟨rfl, rfl, rfl, rfl, rfl, rfl, rfl, rfl, rfl, rfl, rfl, rfl, rfl, rfl,
    rfl, rfl⟩

theorem display_Data_frame (now : ℕ) (g : DeviceState) :
    (display_Data now g).apiKeyErrorActive = g.apiKeyErrorActive ∧
    (display_Data now g).lastServerErrorTime = g.lastServerErrorTime ∧
    (display_Data now g).username = g.username ∧
    (display_Data now g).testActive = g.testActive ∧
    (display_Data now g).sendInterval_sec = g.sendInterval_sec ∧
    (display_Data now g).lastDataSendTime = g.lastDataSendTime ∧
    (display_Data now g).serverUrl = g.serverUrl ∧
    (display_Data now g).wifi_ssid = g.wifi_ssid ∧
    (display_Data now g).wifiConnected = g.wifiConnected ∧
    (display_Data now g).restarted = g.restarted ∧
    (display_Data now g).pulsesAtLastSend = g.pulsesAtLastSend ∧
    (display_Data now g).wheel_size = g.wheel_size ∧
    (display_Data now g).idTag = g.idTag ∧
    (display_Data now g).totalDistance_mm = g.totalDistance_mm ∧
    (display_Data now g).currentPulseCount = g.currentPulseCount ∧
    (display_Data now g).lastPulseCount = g.lastPulseCount ∧
    (display_Data now g).hwCount = g.hwCount ∧
    (display_Data now g).distanceInInterval_mm = g.distanceInInterval_mm ∧
    (display_Data now g).lastPulseTime = g.lastPulseTime := by
  unfold display_Data
  split
  all_goals exact ⟨rfl, rfl, rfl, rfl, rfl, rfl, rfl, rfl, rfl, rfl, rfl, rfl, rfl, rfl,
    rfl, rfl, rfl, rfl, rfl⟩

theorem pulsePhase_frame (reading : ℤ) (now : ℕ) (hv : Bool) (g : DeviceState) :
    (pulsePhase reading now hv g).apiKeyErrorActive = g.apiKeyErrorActive ∧
    (pulsePhase reading now hv g).lastServerErrorTime = g.lastServerErrorTime ∧
    (pulsePhase reading now hv g).username = g.username ∧
    (pulsePhase reading now hv g).testActive = g.testActive ∧
    (pulsePhase reading now hv g).sendInterval_sec = g.sendInterval_sec ∧
    (pulsePhase reading now hv g).lastDataSendTime = g.lastDataSendTime ∧
    (pulsePhase reading now hv g).serverUrl = g.serverUrl ∧
    (pulsePhase reading now hv g).wifi_ssid = g.wifi_ssid ∧
    (pulsePhase reading now hv g).wifiConnected = g.wifiConnected ∧
    (pulsePhase reading now hv g).restarted = g.restarted ∧
    (pulsePhase reading now hv g).pulsesAtLastSend = g.pulsesAtLastSend ∧
    (pulsePhase reading now hv g).wheel_size = g.wheel_size ∧
    (pulsePhase reading now hv g).idTag = g.idTag := by
  unfold pulsePhase
  dsimp only
  repeat' split
  all_goals simp [display_Data_frame]

theorem periodicFetchPhase_frame (resp : FetchResp) (a : HttpOutcome) (now : ℕ)
    (g : DeviceState) :
    (periodicFetchPhase resp a now g).apiKeyErrorActive = g.apiKeyErrorActive ∧
    (periodicFetchPhase resp a now g).lastServerErrorTime = g.lastServerErrorTime ∧
    (periodicFetchPhase resp a now g).restarted = g.restarted := by
  obtain ⟨-, -, h1, h2, -, -, -, -, -, -, -, -, -, -, -, h3, -, -, -⟩ :=
    fetchDeviceConfig_frame resp a g.wifiConnected g
  unfold periodicFetchPhase
  dsimp only
  repeat' split
  all_goals simp_all

theorem deepSleepPhase_state_frame (fa fd sh : Bool) (now : ℕ) (g : DeviceState) :
    (deepSleepPhase fa fd sh now g).state.apiKeyErrorActive = g.apiKeyErrorActive ∧
    (deepSleepPhase fa fd sh now g).state.lastServerErrorTime = g.lastServerErrorTime := by
  unfold deepSleepPhase deepSleepDecide
  dsimp only
  repeat' split
  all_goals simp [TickOutcome.state]

/-! ## Behaviour lemmas for the error/backoff machinery -/

theorem getUserIdFromTag_spec (r : UserResp) (now : ℕ) (g : DeviceState) :
    ((getUserIdFromTag r now g).issued = false → (getUserIdFromTag r now g).state = g) ∧
    ((getUserIdFromTag r now g).issued = true → 0 < g.lastServerErrorTime →
        serverErrorBackoffInterval ≤ now - g.lastServerErrorTime) ∧
    ((getUserIdFromTag r now g).state.apiKeyErrorActive = false →
        g.apiKeyErrorActive = false ∨
        ((getUserIdFromTag r now g).issued = true ∧ isOk200UserId r = true)) ∧
    ((getUserIdFromTag r now g).state.lastServerErrorTime = g.lastServerErrorTime ∨
        (getUserIdFromTag r now g).issued = true) := by
  unfold getUserIdFromTag
  repeat' split
  all_goals simp_all [isOk200UserId, serverErrorBackoffInterval]

theorem riderChangePhase_flagActive (r : UserResp) (now : ℕ) (g : DeviceState)
    (h : g.apiKeyErrorActive = true) :
    (riderChangePhase r now g).2 = false ∧
    (riderChangePhase r now g).1.apiKeyErrorActive = true ∧
    (riderChangePhase r now g).1.lastServerErrorTime = g.lastServerErrorTime := by
  unfold riderChangePhase resetDistanceCounters
  dsimp only
  repeat' split
  all_goals simp_all

theorem sendPhase_noUsername (sc : ℤ) (pr : UserResp) (now : ℕ) (g : DeviceState) :
    (sendPhase sc pr now false g).dataSendIssued = false ∧
    ((sendPhase sc pr now false g).probeIssued = true →
        (g.lastServerErrorTime = 0 ∨ serverErrorBackoffInterval ≤ now - g.lastServerErrorTime)) ∧
    ((sendPhase sc pr now false g).state.apiKeyErrorActive = false →
        g.apiKeyErrorActive = false ∨
        ((sendPhase sc pr now false g).probeIssued = true ∧ isOk200UserId pr = true)) := by
  obtain ⟨hni, hbk, hcl, -⟩ := getUserIdFromTag_spec pr now g
  obtain ⟨-, -, -, -, -, -, -, -, -, -, -, -, -, -, hfl, -⟩ :=
    applyUsernameResult_frame (getUserIdFromTag pr now g)
  unfold sendPhase
  dsimp only
  repeat' split
  all_goals simp_all

theorem hasUserQuery_append (l1 l2 : List NetEvent) :
    hasUserQuery (l1 ++ l2) = (hasUserQuery l1 || hasUserQuery l2) := by
  induction l1 with
  | nil => rfl
  | cons e rest ih => simp only [List.cons_append, hasUserQuery, ih]; split <;> simp_all

theorem connectTail_spec (o : ConnectOracle) (now : ℕ) (w : Bool) (g : DeviceState)
    (evs : List NetEvent) (hevs : hasUserQuery evs = false) :
    (hasUserQuery (connectTail o now w g evs).2 = false →
        (connectTail o now w g evs).1.apiKeyErrorActive = g.apiKeyErrorActive ∧
        (connectTail o now w g evs).1.lastServerErrorTime = g.lastServerErrorTime) ∧
    (hasUserQuery (connectTail o now w g evs).2 = true →
        0 < g.lastServerErrorTime → serverErrorBackoffInterval ≤ now - g.lastServerErrorTime) ∧
    ((connectTail o now w g evs).1.apiKeyErrorActive = false →
        g.apiKeyErrorActive = false ∨
        (hasUserQuery (connectTail o now w g evs).2 = true ∧ isOk200UserId o.userResp = true)) := by
  obtain ⟨hni, hbk, hcl, -⟩ := getUserIdFromTag_spec o.userResp now g
  unfold connectTail
  dsimp only
  repeat' split
  all_goals simp_all [hasUserQuery_append, hasUserQuery]

theorem connectTail_frame (o : ConnectOracle) (now : ℕ) (w : Bool) (g : DeviceState)
    (evs : List NetEvent) :
    (connectTail o now w g evs).1.lastSentIdTag = g.lastSentIdTag ∧
    (connectTail o now w g evs).1.totalDistance_mm = g.totalDistance_mm ∧
    (connectTail o now w g evs).1.distanceInInterval_mm = g.distanceInInterval_mm ∧
    (connectTail o now w g evs).1.pulsesAtLastSend = g.pulsesAtLastSend ∧
    (connectTail o now w g evs).1.lastPulseCount = g.lastPulseCount ∧
    (connectTail o now w g evs).1.currentPulseCount = g.currentPulseCount ∧
    (connectTail o now w g evs).1.hwCount = g.hwCount ∧
    (connectTail o now w g evs).1.wifiConnectAttempts = g.wifiConnectAttempts ∧
    (connectTail o now w g evs).1.wifiConnected = g.wifiConnected ∧
    (connectTail o now w g evs).1.restarted = g.restarted ∧
    (connectTail o now w g evs).1.serverUrl = g.serverUrl ∧
    (connectTail o now w g evs).1.configFetchInterval_sec = g.configFetchInterval_sec ∧
    (connectTail o now w g evs).1.configMode = g.configMode ∧
    (connectTail o now w g evs).1.serverRunning = g.serverRunning ∧
    (connectTail o now w g evs).1.apActive = g.apActive := by
  have hf := getUserIdFromTag_state_frame o.userResp now g
  unfold connectTail
  dsimp only
  repeat' split
  all_goals simp_all

theorem connectAfterFetch_spec (o : ConnectOracle) (now : ℕ) (w : Bool) (g0 g : DeviceState)
    (evs : List NetEvent) (hevs : hasUserQuery evs = false)
    (hfl : g.apiKeyErrorActive = g0.apiKeyErrorActive)
    (hle : g.lastServerErrorTime = g0.lastServerErrorTime) :
    (hasUserQuery (connectAfterFetch o now w g evs).2 = false →
        (connectAfterFetch o now w g evs).1.apiKeyErrorActive = g0.apiKeyErrorActive ∧
        (connectAfterFetch o now w g evs).1.lastServerErrorTime = g0.lastServerErrorTime) ∧
    (hasUserQuery (connectAfterFetch o now w g evs).2 = true →
        0 < g0.lastServerErrorTime → serverErrorBackoffInterval ≤ now - g0.lastServerErrorTime) ∧
    ((connectAfterFetch o now w g evs).1.apiKeyErrorActive = false →
        g0.apiKeyErrorActive = false ∨
        (hasUserQuery (connectAfterFetch o now w g evs).2 = true ∧
         isOk200UserId o.userResp = true)) := by
  have hevs1 : hasUserQuery (evs ++ (if g.serverUrl ≠ "" then [NetEvent.firmwareCheck] else []))
      = false := by
    rw [hasUserQuery_append, hevs]; split <;> rfl
  have hevs2 : hasUserQuery ((evs ++ (if g.serverUrl ≠ "" then [NetEvent.firmwareCheck] else []))
      ++ [NetEvent.firmwareDownload]) = false := by
    rw [hasUserQuery_append, hevs1]; rfl
  obtain ⟨t1, t2, t3⟩ := connectTail_spec o now w g
    (evs ++ (if g.serverUrl ≠ "" then [NetEvent.firmwareCheck] else [])) hevs1
  obtain ⟨u1, u2, u3⟩ := connectTail_spec o now w g
    ((evs ++ (if g.serverUrl ≠ "" then [NetEvent.firmwareCheck] else []))
      ++ [NetEvent.firmwareDownload]) hevs2
  unfold connectAfterFetch
  dsimp only
  repeat' split
  all_goals simp_all [hasUserQuery_append, hasUserQuery]

theorem connectToWiFi_spec (o : ConnectOracle) (now : ℕ) (w : Bool) (g : DeviceState) :
    (hasUserQuery (connectToWiFi o now w g).2 = false →
        (connectToWiFi o now w g).1.apiKeyErrorActive = g.apiKeyErrorActive ∧
        (connectToWiFi o now w g).1.lastServerErrorTime = g.lastServerErrorTime) ∧
    (hasUserQuery (connectToWiFi o now w g).2 = true →
        0 < g.lastServerErrorTime → serverErrorBackoffInterval ≤ now - g.lastServerErrorTime) ∧
    ((connectToWiFi o now w g).1.apiKeyErrorActive = false →
        g.apiKeyErrorActive = false ∨
        (hasUserQuery (connectToWiFi o now w g).2 = true ∧ isOk200UserId o.userResp = true)) := by
  unfold connectToWiFi
  dsimp only
  split
  case isFalse hok => simp_all [hasUserQuery]
  case isTrue hok =>
    repeat' split
    all_goals refine connectAfterFetch_spec o now w g _ _ ?_ ?_ ?_
    all_goals
      first
      | rfl
      | (split <;> exact (fetchDeviceConfig_frame _ _ _ _).2.2.1)
      | (split <;> exact (fetchDeviceConfig_frame _ _ _ _).2.2.2.1)
      | exact (fetchDeviceConfig_frame _ _ _ _).2.2.1
      | exact (fetchDeviceConfig_frame _ _ _ _).2.2.2.1
      | (try simp only [hasUserQuery_append]
         repeat' split
         all_goals rfl)
      | simp_all

theorem connectAfterFetch_frame (o : ConnectOracle) (now : ℕ) (w : Bool)
    (g : DeviceState) (evs : List NetEvent) :
    (connectAfterFetch o now w g evs).1.lastSentIdTag = g.lastSentIdTag ∧
    (connectAfterFetch o now w g evs).1.totalDistance_mm = g.totalDistance_mm ∧
    (connectAfterFetch o now w g evs).1.distanceInInterval_mm = g.distanceInInterval_mm ∧
    (connectAfterFetch o now w g evs).1.pulsesAtLastSend = g.pulsesAtLastSend ∧
    (connectAfterFetch o now w g evs).1.lastPulseCount = g.lastPulseCount ∧
    (connectAfterFetch o now w g evs).1.currentPulseCount = g.currentPulseCount ∧
    (connectAfterFetch o now w g evs).1.hwCount = g.hwCount ∧
    (connectAfterFetch o now w g evs).1.wifiConnectAttempts = g.wifiConnectAttempts ∧
    (connectAfterFetch o now w g evs).1.wifiConnected = g.wifiConnected ∧
    (connectAfterFetch o now w g evs).1.configMode = g.configMode ∧
    (connectAfterFetch o now w g evs).1.serverRunning = g.serverRunning ∧
    (connectAfterFetch o now w g evs).1.apActive = g.apActive := by
  have h1 := connectTail_frame o now w g
    (evs ++ (if g.serverUrl ≠ "" then [NetEvent.firmwareCheck] else []))
  have h2 := connectTail_frame o now w g
    ((evs ++ (if g.serverUrl ≠ "" then [NetEvent.firmwareCheck] else []))
      ++ [NetEvent.firmwareDownload])
  unfold connectAfterFetch
  dsimp only
  repeat' split
  all_goals simp_all

theorem connectToWiFi_frame (o : ConnectOracle) (now : ℕ) (w : Bool) (g : DeviceState) :
    (connectToWiFi o now w g).1.lastSentIdTag = g.lastSentIdTag ∧
    (connectToWiFi o now w g).1.totalDistance_mm = g.totalDistance_mm ∧
    (connectToWiFi o now w g).1.distanceInInterval_mm = g.distanceInInterval_mm ∧
    (connectToWiFi o now w g).1.pulsesAtLastSend = g.pulsesAtLastSend ∧
    (connectToWiFi o now w g).1.lastPulseCount = g.lastPulseCount ∧
    (connectToWiFi o now w g).1.currentPulseCount = g.currentPulseCount ∧
    (connectToWiFi o now w g).1.hwCount = g.hwCount := by
  unfold connectToWiFi
  dsimp only
  repeat' split
  all_goals simp only [connectAfterFetch_frame]
  all_goals repeat' split
  all_goals simp_all [fetchDeviceConfig_frame]

theorem connectToWiFi_attempts (o : ConnectOracle) (now : ℕ) (w : Bool) (g : DeviceState) :
    (o.connectOk = true → (connectToWiFi o now w g).1.wifiConnectAttempts = 0) ∧
    (o.connectOk = false →
        (connectToWiFi o now w g).1.wifiConnectAttempts = g.wifiConnectAttempts + 1) := by
  unfold connectToWiFi
  dsimp only
  repeat' split
  all_goals simp only [connectAfterFetch_frame]
  all_goals repeat' split
  all_goals simp_all [fetchDeviceConfig_frame]

theorem connectToWiFi_modes (o : ConnectOracle) (now : ℕ) (w : Bool) (g : DeviceState) :
    (connectToWiFi o now w g).1.configMode = g.configMode ∧
    (connectToWiFi o now w g).1.serverRunning = g.serverRunning ∧
    (connectToWiFi o now w g).1.apActive = g.apActive := by
  unfold connectToWiFi
  dsimp only
  repeat' split
  all_goals simp only [connectAfterFetch_frame]
  all_goals repeat' split
  all_goals simp_all [fetchDeviceConfig_frame]

theorem getPreferences_frame (f : BuildFlags) (g : DeviceState) :
    (getPreferences f g).configMode = g.configMode ∧
    (getPreferences f g).serverRunning = g.serverRunning ∧
    (getPreferences f g).apActive = g.apActive ∧
    (getPreferences f g).restarted = g.restarted := by
  exact ⟨rfl, rfl, rfl, rfl⟩

theorem rfidHandler_frame (t : Option String) (g : DeviceState) :
    (rfidHandler t g).apiKeyErrorActive = g.apiKeyErrorActive ∧
    (rfidHandler t g).lastServerErrorTime = g.lastServerErrorTime ∧
    (rfidHandler t g).username = g.username ∧
    (rfidHandler t g).lastSentIdTag = g.lastSentIdTag ∧
    (rfidHandler t g).wifiConnected = g.wifiConnected ∧
    (rfidHandler t g).wifiConnectAttempts = g.wifiConnectAttempts := by
  unfold rfidHandler
  repeat' split
  all_goals exact ⟨rfl, rfl, rfl, rfl, rfl, rfl⟩

theorem reconnectPhase_spec (o : ConnectOracle) (now : ℕ) (w : Bool) (g : DeviceState) :
    (hasUserQuery (reconnectPhase o now w g).2.2 = false →
        (reconnectPhase o now w g).1.apiKeyErrorActive = g.apiKeyErrorActive ∧
        (reconnectPhase o now w g).1.lastServerErrorTime = g.lastServerErrorTime) ∧
    (hasUserQuery (reconnectPhase o now w g).2.2 = true →
        0 < g.lastServerErrorTime → serverErrorBackoffInterval ≤ now - g.lastServerErrorTime) ∧
    ((reconnectPhase o now w g).1.apiKeyErrorActive = false →
        g.apiKeyErrorActive = false ∨
        (hasUserQuery (reconnectPhase o now w g).2.2 = true ∧
         isOk200UserId o.userResp = true)) := by
  obtain ⟨c1, c2, c3⟩ := connectToWiFi_spec o now w g
  unfold reconnectPhase
  dsimp only
  repeat' split
  all_goals simp_all [hasUserQuery]

theorem reconnectPhase_frame (o : ConnectOracle) (now : ℕ) (w : Bool) (g : DeviceState) :
    (reconnectPhase o now w g).1.lastSentIdTag = g.lastSentIdTag ∧
    (reconnectPhase o now w g).1.totalDistance_mm = g.totalDistance_mm ∧
    (reconnectPhase o now w g).1.distanceInInterval_mm = g.distanceInInterval_mm ∧
    (reconnectPhase o now w g).1.pulsesAtLastSend = g.pulsesAtLastSend ∧
    (reconnectPhase o now w g).1.lastPulseCount = g.lastPulseCount ∧
    (reconnectPhase o now w g).1.currentPulseCount = g.currentPulseCount ∧
    (reconnectPhase o now w g).1.hwCount = g.hwCount := by
  have h := connectToWiFi_frame o now w g
  unfold reconnectPhase
  dsimp only
  repeat' split
  all_goals simp_all

theorem riderChangePhase_reset (r : UserResp) (now : ℕ) (g : DeviceState)
    (h1 : g.idTag ≠ "") (h2 : g.idTag ≠ g.lastSentIdTag) :
    (riderChangePhase r now g).1.lastSentIdTag = g.idTag ∧
    (riderChangePhase r now g).1.totalDistance_mm = 0 ∧
    (riderChangePhase r now g).1.distanceInInterval_mm = 0 ∧
    (riderChangePhase r now g).1.pulsesAtLastSend = 0 ∧
    (riderChangePhase r now g).1.lastPulseCount = 0 ∧
    (riderChangePhase r now g).1.currentPulseCount = 0 ∧
    (riderChangePhase r now g).1.hwCount = 0 := by
  unfold riderChangePhase resetDistanceCounters
  dsimp only
  repeat' split
  all_goals simp_all [getUserIdFromTag_state_frame, applyUsernameResult_frame]

/-! ## Claim theorems -/

/-- **C10.** If `fetchDeviceConfig` cannot obtain a usable response — a
connection error, a non-200 status, an unparseable body, a body without the
`success` key, or `success = false` — it returns `false` and leaves the
whole device state (NVS and in-memory globals) unchanged: no partial
application of configuration on error. -/
theorem C10_fetch_error_no_partial_application (a : HttpOutcome) (w : Bool)
    (g : DeviceState) :
    (fetchDeviceConfig .conn a w g = (false, g)) ∧
    (∀ (code : ℕ) (body : FetchBody), code ≠ 200 →
        fetchDeviceConfig (.http code body) a w g = (false, g)) ∧
    (fetchDeviceConfig (.http 200 .parseError) a w g = (false, g)) ∧
    (fetchDeviceConfig (.http 200 .missingSuccess) a w g = (false, g)) ∧
    (∀ config : Option FetchedConfig,
        fetchDeviceConfig (.http 200 (.payload false config)) a w g = (false, g)) := by
  refine ⟨?_, ?_, ?_, ?_, ?_⟩
  · unfold fetchDeviceConfig; split <;> rfl
  · intro code body hcode
    unfold fetchDeviceConfig
    split
    · rfl
    · simp [hcode]
  · unfold fetchDeviceConfig; split <;> rfl
  · unfold fetchDeviceConfig; split <;> rfl
  · intro config; unfold fetchDeviceConfig; split <;> rfl

/-- Witness for C10 at a concrete failing response. -/
theorem C10_witness :
    fetchDeviceConfig (.http 503 (.payload true none)) .conn true stWake
      = (false, stWake) :=
  (C10_fetch_error_no_partial_application .conn true stWake).2.1 503
    (.payload true none) (by decide)

/-- **C2.** For every field present in a fetched configuration, the
application policy never overwrites a local value with an empty string,
never overwrites a numeric field other than `deep_sleep_seconds` with zero,
never applies a wheel size outside 500-3000 mm or an AP password shorter
than 8 characters (the prior value is retained in each case), while
`deep_sleep_seconds = 0` and the debug/test booleans (including `false`)
are always applied when their key is present. -/
theorem C2_fetch_validity_policy (c : FetchedConfig) (a : HttpOutcome) (w : Bool)
    (g : DeviceState) :
    (c.default_id_tag = some "" →
        (applyServerConfig c a w g).idTag = g.idTag ∧
        (applyServerConfig c a w g).nvs.default_id_tag = g.nvs.default_id_tag) ∧
    (c.send_interval_seconds = some 0 →
        (applyServerConfig c a w g).sendInterval_sec = g.sendInterval_sec) ∧
    (c.server_url = some "" → (applyServerConfig c a w g).serverUrl = g.serverUrl) ∧
    (∀ x : ℚ, c.wheel_size = some x → x < 500 ∨ 3000 < x →
        (applyServerConfig c a w g).wheel_size = g.wheel_size) ∧
    (∀ p : String, c.ap_password = some p → p.length < 8 →
        (applyServerConfig c a w g).nvs.ap_passwd = g.nvs.ap_passwd) ∧
    (c.device_api_key = some "" → (applyServerConfig c a w g).apiKey = g.apiKey) ∧
    (c.config_fetch_interval_seconds = some 0 →
        (applyServerConfig c a w g).configFetchInterval_sec = g.configFetchInterval_sec) ∧
    (∀ n : ℕ, c.deep_sleep_seconds = some n →
        (applyServerConfig c a w g).deepSleepTimeout_sec = n) ∧
    (∀ b : Bool, c.debug_mode = some b → (applyServerConfig c a w g).debugEnabled = b) ∧
    (∀ b : Bool, c.test_mode = some b → (applyServerConfig c a w g).testActive = b) := by
  refine ⟨?_, ?_, ?_, ?_, ?_, ?_, ?_, ?_, ?_, ?_⟩
  · intro h
    constructor
    · show (fetchApplyDefaultIdTag c g).2.2 = g.idTag
      unfold fetchApplyDefaultIdTag; rw [h]; simp
    · show (fetchApplyDefaultIdTag c g).1 = g.nvs.default_id_tag
      unfold fetchApplyDefaultIdTag; rw [h]; simp
  · intro h
    show (fetchApplySendInterval c g).2 = g.sendInterval_sec
    unfold fetchApplySendInterval; rw [h]; simp
  · intro h
    show (fetchApplyServerUrl c g).2 = g.serverUrl
    unfold fetchApplyServerUrl; rw [h]; simp
  · intro x h hx
    show (fetchApplyWheelSize c g).2 = g.wheel_size
    unfold fetchApplyWheelSize; rw [h]
    dsimp only
    rw [if_neg (by rintro ⟨hl, hr⟩; rcases hx with hx | hx <;> linarith)]
  · intro p h hp
    show fetchApplyApPassword c g = g.nvs.ap_passwd
    unfold fetchApplyApPassword; rw [h]
    dsimp only
    rw [if_neg (by omega)]
  · intro h
    show (fetchApplyDeviceApiKey c (fetchApplyServerUrl c g).2 w a g).2 = g.apiKey
    unfold fetchApplyDeviceApiKey; rw [h]; simp
  · intro h
    show (fetchApplyConfigFetchInterval c g).2 = g.configFetchInterval_sec
    unfold fetchApplyConfigFetchInterval; rw [h]; simp
  · intro n h
    show (fetchApplyDeepSleep c g).2 = n
    unfold fetchApplyDeepSleep; rw [h]
    dsimp only
    split
    · rfl
    · next hne => exact (not_ne_iff.mp hne).symm
  · intro b h
    show (fetchApplyDebugMode c g).2 = b
    unfold fetchApplyDebugMode; rw [h]
    dsimp only
    split
    · rfl
    · next hne => exact (not_ne_iff.mp hne).symm
  · intro b h
    show (fetchApplyTestMode c g).2 = b
    unfold fetchApplyTestMode; rw [h]
    dsimp only
    split
    · rfl
    · next hne => exact (not_ne_iff.mp hne).symm

/-- Witness for C2 at a concrete invalid configuration push. -/
theorem C2_witness :
    (applyServerConfig
        { default_id_tag := some "", send_interval_seconds := some 0,
          server_url := some "", wheel_size := some 100,
          ap_password := some "short", device_api_key := some "",
          config_fetch_interval_seconds := some 0, deep_sleep_seconds := some 0,
          debug_mode := some false, test_mode := some false }
        .conn true stWake).idTag = stWake.idTag ∧
    (applyServerConfig
        { default_id_tag := some "", send_interval_seconds := some 0,
          server_url := some "", wheel_size := some 100,
          ap_password := some "short", device_api_key := some "",
          config_fetch_interval_seconds := some 0, deep_sleep_seconds := some 0,
          debug_mode := some false, test_mode := some false }
        .conn true stWake).wheel_size = stWake.wheel_size ∧
    (applyServerConfig
        { default_id_tag := some "", send_interval_seconds := some 0,
          server_url := some "", wheel_size := some 100,
          ap_password := some "short", device_api_key := some "",
          config_fetch_interval_seconds := some 0, deep_sleep_seconds := some 0,
          debug_mode := some false, test_mode := some false }
        .conn true stWake).deepSleepTimeout_sec = 0 := by
  have h := C2_fetch_validity_policy
    { default_id_tag := some "", send_interval_seconds := some 0,
      server_url := some "", wheel_size := some 100,
      ap_password := some "short", device_api_key := some "",
      config_fetch_interval_seconds := some 0, deep_sleep_seconds := some 0,
      debug_mode := some false, test_mode := some false }
    .conn true stWake
  exact ⟨(h.1 rfl).1, h.2.2.2.1 100 rfl (by norm_num), h.2.2.2.2.2.2.2.1 0 rfl⟩

/-- **C3.** A non-empty `device_api_key` in a fetched configuration is first
tested with the lightweight authenticated heartbeat request (`testApiKey`):
the new key is persisted to NVS and adopted in memory exactly when the test
passes, and the test passes exactly when the heartbeat returned HTTP 200
(401/403, any other status, and connection errors all fail); otherwise the
previously active key is left unchanged. -/
theorem C3_apiKey_tested_before_commit (c : FetchedConfig) (a : HttpOutcome)
    (g : DeviceState) (k : String) (hk : c.device_api_key = some k) (hne : k ≠ "") :
    ((applyServerConfig c a true g).apiKey
        = (if testApiKey k (fetchApplyServerUrl c g).2 true a then k else g.apiKey)) ∧
    ((applyServerConfig c a true g).nvs.apiKey
        = (if testApiKey k (fetchApplyServerUrl c g).2 true a then some k
           else g.nvs.apiKey)) ∧
    (testApiKey k (fetchApplyServerUrl c g).2 true a = true
        ↔ ((fetchApplyServerUrl c g).2 ≠ "" ∧ a = .status 200)) := by
  refine ⟨?_, ?_, ?_⟩
  · show (fetchApplyDeviceApiKey c (fetchApplyServerUrl c g).2 true a g).2 = _
    unfold fetchApplyDeviceApiKey; rw [hk]
    dsimp only
    rw [if_pos hne]
    split <;> simp_all
  · show (fetchApplyDeviceApiKey c (fetchApplyServerUrl c g).2 true a g).1 = _
    unfold fetchApplyDeviceApiKey; rw [hk]
    dsimp only
    rw [if_pos hne]
    split <;> simp_all
  · unfold testApiKey
    split
    · next h =>
      rcases h with h | h | h
      · exact absurd h hne
      · simp [h]
      · exact absurd h (by simp)
    · next h =>
      push_neg at h
      cases a with
      | conn => simp_all
      | status code => simp_all

/-- Witness for C3: a key accepted after an HTTP-200 test, at a concrete
input. -/
theorem C3_witness :
    (applyServerConfig { device_api_key := some "newkey" } (.status 200) true
        stWake).apiKey = "newkey" ∧
    (applyServerConfig { device_api_key := some "newkey" } (.status 401) true
        stWake).apiKey = stWake.apiKey := by
  have h1 := C3_apiKey_tested_before_commit { device_api_key := some "newkey" }
    (.status 200) stWake "newkey" rfl (by decide)
  have h2 := C3_apiKey_tested_before_commit { device_api_key := some "newkey" }
    (.status 401) stWake "newkey" rfl (by decide)
  constructor
  · rw [h1.1, if_pos]
    rw [h1.2.2]
    exact ⟨by decide, rfl⟩
  · rw [h2.1, if_neg]
    rw [h2.2.2]
    rintro ⟨-, h⟩
    exact absurd h (by decide)

/-- **C6 (counterexample).** The cumulative distance is not exactly
`count × wheel_size` for every count and in-range wheel size: at the default
wheel size 2075 mm (within `[500, 3000]`) a pulse count of 16201 makes the
exact product 33617075 mm, which does not fit in a binary32 mantissa; the
pulse block stores the rounded 33617076 mm (`main.cpp` line 1104). -/
theorem C6_counterexample :
    500 ≤ ({} : DeviceState).wheel_size ∧ ({} : DeviceState).wheel_size ≤ 3000 ∧
    distance 16201 ({} : DeviceState).wheel_size = 33617075 ∧
    (pulsePhase 16201 5 true ({} : DeviceState)).totalDistance_mm = 33617076 ∧
    (pulsePhase 16201 5 true ({} : DeviceState)).totalDistance_mm
      ≠ distance 16201 ({} : DeviceState).wheel_size := by
  have hw : ({} : DeviceState).wheel_size = 2075 := rfl
  refine ⟨by decide, by decide, ?_, by decide, ?_⟩
  · rw [hw]
    norm_num [distance]
  · rw [hw]
    intro hcon
    rw [show distance 16201 (2075 : ℚ) = 33617075 from by norm_num [distance]] at hcon
    have hval : (pulsePhase 16201 5 true ({} : DeviceState)).totalDistance_mm
        = 33617076 := by decide
    rw [hval] at hcon
    exact absurd hcon (by norm_num)

/-- **C6 (amended).** Each distance update recomputes the value from the
current hardware count as one binary32 product: the pulse block stores
`totalDistance_mm = fl32 (count × wheel_size)` and the send block stores
`distanceInInterval_mm = fl32 (p × wheel_size)` with `p` the `int16_t`
difference of the counters.  Because the product is recomputed from the
count rather than accumulated, the stored value carries at most the one
final rounding — `|fl32 q - q| ≤ |q| / 2 ^ 24` — and cannot drift with the
number of increments; it equals the exact product whenever that product is
an integer of magnitude at most `2 ^ 24` (in particular for the spec example
50 × 2075 = 103750), and it is monotonically non-decreasing in the count for
any non-negative wheel size. -/
theorem C6_distance_float :
    (∀ (reading : ℤ) (now : ℕ) (g : DeviceState), reading ≠ g.lastPulseCount →
        (pulsePhase reading now true g).totalDistance_mm
          = fl32 (distance reading g.wheel_size)) ∧
    (∀ (sc : ℤ) (pr : UserResp) (now : ℕ) (g : DeviceState),
        g.testActive = false → g.sendInterval_sec * 1000 ≤ now - g.lastDataSendTime →
        (sendPhase sc pr now true g).state.distanceInInterval_mm
          = fl32 (distance (int16wrap (g.currentPulseCount - g.pulsesAtLastSend))
              g.wheel_size)) ∧
    (∀ z : ℤ, z.natAbs ≤ 2 ^ 24 → fl32 (z : ℚ) = (z : ℚ)) ∧
    (∀ (reading : ℤ) (now : ℕ) (g : DeviceState) (W : ℤ),
        reading ≠ g.lastPulseCount → g.wheel_size = (W : ℚ) →
        (reading * W).natAbs ≤ 2 ^ 24 →
        (pulsePhase reading now true g).totalDistance_mm
          = distance reading g.wheel_size) ∧
    (∀ q : ℚ, |fl32 q - q| ≤ |q| / 2 ^ 24) ∧
    (∀ (c d : ℤ) (w : ℚ), 0 ≤ w → c ≤ d →
        fl32 (distance c w) ≤ fl32 (distance d w)) := by
  have hpulse : ∀ (reading : ℤ) (now : ℕ) (g : DeviceState),
      reading ≠ g.lastPulseCount →
      (pulsePhase reading now true g).totalDistance_mm
        = fl32 (distance reading g.wheel_size) := by
    intro reading now g hne
    unfold pulsePhase
    dsimp only
    rw [if_pos rfl]
    rw [if_pos hne]
    repeat' split
    all_goals simp [display_Data_frame, fmul_eq, distance]
  refine ⟨hpulse, ?_, ?_, ?_, fl32_err, ?_⟩
  · intro sc pr now g ht hel
    unfold sendPhase
    dsimp only
    rw [if_pos ⟨ht, rfl, hel⟩]
    repeat' split
    all_goals simp [fmul_eq, distance]
  · intro z hz
    exact fl32_intCast z hz
  · intro reading now g W hne hW hsmall
    rw [hpulse reading now g hne, hW]
    have hint : distance reading ((W : ℤ) : ℚ) = ((reading * W : ℤ) : ℚ) := by
      unfold distance
      push_cast
      ring
    rw [hint, fl32_intCast _ hsmall]
  · intro c d w hw hcd
    apply fl32_mono
    unfold distance
    exact mul_le_mul_of_nonneg_right (by exact_mod_cast hcd) hw

/-- Witness for the amended C6: the spec example (50 pulses at 2075 mm)
stays exact under the float model, and the rounded distance is monotone
between 50 and 51 pulses. -/
theorem C6_float_witness :
    (pulsePhase 50 1000 true ({} : DeviceState)).totalDistance_mm
      = distance 50 ({} : DeviceState).wheel_size ∧
    fl32 (distance 50 ({} : DeviceState).wheel_size)
      ≤ fl32 (distance 51 ({} : DeviceState).wheel_size) := by
  constructor
  · exact C6_distance_float.2.2.2.1 50 1000 {} 2075 (by decide) rfl (by decide)
  · exact C6_distance_float.2.2.2.2.2 50 51 ({} : DeviceState).wheel_size
      (by decide) (by decide)

/-- **C4.** In NormalMode, whenever (at the rider-change check) the active
`idTag` is non-empty and differs from `lastSentIdTag`, the same pass resets
every distance and pulse counter to zero — software mirrors and the hardware
PCNT register together — and immediately sets `lastSentIdTag` to the new
tag; the state handed to the pulse-processing block still carries the new
tag with the zero baseline, so no pass observes the new rider id paired with
a stale non-zero distance. -/
theorem C4_rider_change_atomic (o : TickOracle) (now : ℕ) (g : DeviceState)
    (h1 : (rfidHandler o.rfidTag g).idTag ≠ "")
    (h2 : (rfidHandler o.rfidTag g).idTag ≠ (rfidHandler o.rfidTag g).lastSentIdTag) :
    ((tickAfterRider o now g).1.lastSentIdTag = (rfidHandler o.rfidTag g).idTag ∧
     (tickAfterRider o now g).1.totalDistance_mm = 0 ∧
     (tickAfterRider o now g).1.distanceInInterval_mm = 0 ∧
     (tickAfterRider o now g).1.pulsesAtLastSend = 0 ∧
     (tickAfterRider o now g).1.lastPulseCount = 0 ∧
     (tickAfterRider o now g).1.currentPulseCount = 0 ∧
     (tickAfterRider o now g).1.hwCount = 0) ∧
    ((tickBeforePulse o now g).lastSentIdTag = (rfidHandler o.rfidTag g).idTag ∧
     (tickBeforePulse o now g).totalDistance_mm = 0 ∧
     (tickBeforePulse o now g).distanceInInterval_mm = 0 ∧
     (tickBeforePulse o now g).pulsesAtLastSend = 0 ∧
     (tickBeforePulse o now g).lastPulseCount = 0 ∧
     (tickBeforePulse o now g).currentPulseCount = 0 ∧
     (tickBeforePulse o now g).hwCount = 0) := by
  obtain ⟨a1, a2, a3, a4, a5, a6, a7⟩ :=
    riderChangePhase_reset o.userResp now (rfidHandler o.rfidTag g) h1 h2
  obtain ⟨b1, b2, b3, b4, b5, b6, b7⟩ :=
    reconnectPhase_frame o.connect now o.wakeupExt0 (tickAfterRider o now g).1
  exact ⟨⟨a1, a2, a3, a4, a5, a6, a7⟩,
    b1.trans a1, b2.trans a2, b3.trans a3, b4.trans a4, b5.trans a5,
    b6.trans a6, b7.trans a7⟩

/-- Witness for C4 at a concrete rider change with 40 accumulated pulses
(spec scenario 2). -/
theorem C4_witness :
    (tickBeforePulse { rfidTag := some "tagABC" } 2000 stRider40).lastSentIdTag
      = "tagABC" ∧
    (tickBeforePulse { rfidTag := some "tagABC" } 2000 stRider40).totalDistance_mm
      = 0 ∧
    (tickBeforePulse { rfidTag := some "tagABC" } 2000 stRider40).hwCount = 0 := by
  have h := C4_rider_change_atomic { rfidTag := some "tagABC" } 2000 stRider40
    (by decide) (by decide)
  exact ⟨h.2.1.trans (by decide), h.2.2.1, h.2.2.2.2.2.2.2⟩

/-- **C5.** While `apiKeyErrorActive` is set (and its backoff timer armed,
which every code path that sets the flag does), a NormalMode pass issues no
data send and no rider-name query except the backoff probe: any user-id
request actually issued (from the retry branch or from a reconnect)
happens only once the 60 s backoff since `lastServerErrorTime` has elapsed;
and the flag is cleared during the pass only by a user-id request that
returned HTTP 200 (with its `user_id` payload). -/
theorem C5_apiKeyError_suppression (o : TickOracle) (now : ℕ) (g : DeviceState)
    (hflag : g.apiKeyErrorActive = true) (herr : 0 < g.lastServerErrorTime) :
    (normalTick o now g).2.dataSendIssued = false ∧
    (normalTick o now g).2.tagQueryIssued = false ∧
    (((normalTick o now g).2.connectQueryIssued = true ∨
      (normalTick o now g).2.probeIssued = true) →
        serverErrorBackoffInterval ≤ now - g.lastServerErrorTime) ∧
    ((normalTick o now g).1.state.apiKeyErrorActive = false →
        ((normalTick o now g).2.connectQueryIssued = true ∧
         isOk200UserId o.connect.userResp = true) ∨
        ((normalTick o now g).2.probeIssued = true ∧
         isOk200UserId o.probeResp = true)) := by
  obtain ⟨e1, e2, -⟩ := rfidHandler_frame o.rfidTag g
  have hflag0 : (rfidHandler o.rfidTag g).apiKeyErrorActive = true := by rw [e1, hflag]
  obtain ⟨hq, hfl1, hle1⟩ := riderChangePhase_flagActive o.userResp now _ hflag0
  have hle1g : (riderChangePhase o.userResp now (rfidHandler o.rfidTag g)).1.lastServerErrorTime
      = g.lastServerErrorTime := by rw [hle1, e2]
  have herr1 : 0 < (riderChangePhase o.userResp now
      (rfidHandler o.rfidTag g)).1.lastServerErrorTime := by rw [hle1g]; exact herr
  obtain ⟨s1, s2, s3⟩ := reconnectPhase_spec o.connect now o.wakeupExt0
    (riderChangePhase o.userResp now (rfidHandler o.rfidTag g)).1
  have hhv : hasValidUsername
      (riderChangePhase o.userResp now (rfidHandler o.rfidTag g)).1 = false := by
    simp [hasValidUsername, hfl1]
  unfold normalTick tickAfterRider
  dsimp only
  rw [hhv, hq]
  split
  case isTrue hrst =>
    refine ⟨rfl, rfl, ?_, ?_⟩
    · rintro (hcq | hpb)
      · have := s2 hcq herr1
        rwa [hle1g] at this
      · cases hpb
    · intro hcl
      rcases s3 hcl with hcontra | ⟨hcq, hok⟩
      · rw [hfl1] at hcontra; cases hcontra
      · exact Or.inl ⟨hcq, hok⟩
  case isFalse hrst =>
    -- names for the post-reconnect and later states
    set g2 := (reconnectPhase o.connect now o.wakeupExt0
      (riderChangePhase o.userResp now (rfidHandler o.rfidTag g)).1).1 with hg2
    set g3 := pulsePhase (g2.hwCount + (o.newPulses : ℤ)) now false g2 with hg3
    set g4 := periodicFetchPhase o.fetchResp o.fetchApiTest now g3 with hg4
    obtain ⟨p1, p2, -⟩ := pulsePhase_frame (g2.hwCount + (o.newPulses : ℤ)) now false g2
    obtain ⟨f1, f2, -⟩ := periodicFetchPhase_frame o.fetchResp o.fetchApiTest now g3
    obtain ⟨sp1, sp2, sp3⟩ := sendPhase_noUsername o.sendCode o.probeResp now g4
    obtain ⟨d1, -⟩ := deepSleepPhase_state_frame o.fwUpdateAvailable o.fwDownloadOk
      o.sensorHigh now (sendPhase o.sendCode o.probeResp now false g4).state
    refine ⟨sp1, rfl, ?_, ?_⟩
    · rintro (hcq | hpb)
      · have := s2 hcq herr1
        rwa [hle1g] at this
      · -- probe issued: if the reconnect issued no query, lastServerErrorTime survived
        by_cases hcq : hasUserQuery (reconnectPhase o.connect now o.wakeupExt0
            (riderChangePhase o.userResp now (rfidHandler o.rfidTag g)).1).2.2 = true
        · have := s2 hcq herr1
          rwa [hle1g] at this
        · obtain ⟨-, hl2⟩ := s1 (by revert hcq; cases hasUserQuery (reconnectPhase o.connect
              now o.wakeupExt0 (riderChangePhase o.userResp now
              (rfidHandler o.rfidTag g)).1).2.2 <;> simp)
          have hl4 : g4.lastServerErrorTime = g.lastServerErrorTime := by
            rw [f2, p2, hl2, hle1g]
          rcases sp2 hpb with h0 | hb
          · rw [hl4] at h0; omega
          · rwa [hl4] at hb
    · intro hcl
      rw [d1] at hcl
      rcases sp3 hcl with h4 | ⟨hpb, hok⟩
      · rw [f1, p1] at h4
        rcases s3 h4 with hcontra | ⟨hcq, hok⟩
        · rw [hfl1] at hcontra; cases hcontra
        · exact Or.inl ⟨hcq, hok⟩
      · exact Or.inr ⟨hpb, hok⟩

/-- Witness for C5 at a concrete pass with the error flag set. -/
theorem C5_witness :
    (normalTick {} 10 stApiKeyErr).2.dataSendIssued = false ∧
    (normalTick {} 10 stApiKeyErr).2.tagQueryIssued = false := by
  have h := C5_apiKeyError_suppression {} 10 stApiKeyErr rfl (by decide)
  exact ⟨h.1, h.2.1⟩

/-- **C7 (code defect).** After 5 s without a pulse the reported speed is
NOT forced to 0 and the ring buffer is NOT cleared: the idle-timeout reset
exists only inside `display_Data`, whose only call site runs right after a
pulse has refreshed `lastPulseTime` (lines 1148/1151), so a pass over an
idle state (19 s without a pulse here) leaves the stale 12 km/h speed and
the 3-sample history untouched.  The reset on rider change (via
`resetDistanceCounters`) does clear both, as the claim states. -/
theorem C7_idle_timeout_reset_never_fires :
    SPEED_TIMEOUT_MS ≤ 20000 - stIdleSpeed.lastPulseTime ∧
    normalTick {} 20000 stIdleSpeed = (.next stIdleSpeed, {}) ∧
    stIdleSpeed.currentSpeed_kmh = 12 ∧
    stIdleSpeed.speedHistoryCount = 3 ∧
    (resetDistanceCounters stIdleSpeed).currentSpeed_kmh = 0 ∧
    (resetDistanceCounters stIdleSpeed).speedHistoryCount = 0 ∧
    (resetDistanceCounters stIdleSpeed).speedHistory = [0, 0, 0, 0, 0] := by
  refine ⟨by decide, by decide, by decide, by decide, by decide, by decide, by decide⟩

/-- **C9 (counterexample).** The claim that NormalMode reconnection attempts
are spaced by the fixed 30 s interval (`RECONNECT_INTERVAL_MS`) is false:
the monitoring branch has no time gate, and two consecutive passes 1 ms
apart both attempt to reconnect (state `{}` is disconnected with 0 failed
attempts). -/
theorem C9_counterexample :
    ¬ (∀ (g : DeviceState) (now1 now2 : ℕ),
        (reconnectPhase {} now1 false g).2.1 = true →
        (reconnectPhase {} now2 false (reconnectPhase {} now1 false g).1).2.1 = true →
        RECONNECT_INTERVAL_MS ≤ now2 - now1) := by
  intro h
  have := h {} 1000 1001 (by decide) (by decide)
  exact absurd this (by decide)

/-- **C9 (amended).** While disconnected in NormalMode a reconnection
attempt is made on every pass for as long as `wifiConnectAttempts < 3` —
with no time spacing (`RECONNECT_INTERVAL_MS` is declared but never read);
beyond the cap nothing is attempted and the state is untouched; the counter
becomes 0 on a successful connection (and on seeing the link up) and
increments on a failed attempt. -/
theorem C9_reconnect_policy (o : ConnectOracle) (now : ℕ) (w : Bool) (g : DeviceState) :
    ((reconnectPhase o now w g).2.1 = true ↔
        (g.wifiConnected = false ∧ g.wifiConnectAttempts < 3)) ∧
    (g.wifiConnected = false → g.wifiConnectAttempts < 3 → o.connectOk = true →
        (reconnectPhase o now w g).1.wifiConnectAttempts = 0) ∧
    (g.wifiConnected = false → g.wifiConnectAttempts < 3 → o.connectOk = false →
        (reconnectPhase o now w g).1.wifiConnectAttempts = g.wifiConnectAttempts + 1) ∧
    (g.wifiConnected = false → ¬ g.wifiConnectAttempts < 3 →
        (reconnectPhase o now w g).1 = g) ∧
    (g.wifiConnected = true → (reconnectPhase o now w g).1.wifiConnectAttempts = 0) := by
  obtain ⟨ha1, ha2⟩ := connectToWiFi_attempts o now w g
  unfold reconnectPhase
  dsimp only
  repeat' split
  all_goals simp_all
  all_goals omega

/-- Witness for the amended C9 at a concrete disconnected pass. -/
theorem C9_witness : (reconnectPhase {} 5 false ({} : DeviceState)).2.1 = true :=
  (C9_reconnect_policy {} 5 false {}).1.mpr ⟨rfl, by decide⟩

/-- **C8 (counterexample).** On a wake-from-sleep session the heartbeat does
not precede every config fetch: with association and config report
succeeding, the fetch inside `connectToWiFi` runs before `setup()` sends the
heartbeat.  The full request order of the session is report, fetch,
firmware check, rider-name query, heartbeat, fetch. -/
theorem C8_counterexample :
    (setupWakeFromSleep okConnect (.http 200 (.payload true none)) .conn 5 stWake).2
      = [.reportConfig, .fetchConfig, .firmwareCheck, .userQuery, .heartbeat,
         .fetchConfig] ∧
    heartbeatBeforeAnyFetch
      (setupWakeFromSleep okConnect (.http 200 (.payload true none)) .conn 5
        stWake).2 = false := by
  constructor <;> decide

theorem fetchDeviceConfig_payload_none (a : HttpOutcome) (w : Bool) (g : DeviceState)
    (hurl : g.serverUrl ≠ "") (hw : w = true) :
    fetchDeviceConfig (.http 200 (.payload true none)) a w g = (true, g) := by
  unfold fetchDeviceConfig
  rw [if_neg (by simp [hurl, hw])]
  simp

theorem getUserIdFromTag_issued (r : UserResp) (now : ℕ) (g : DeviceState)
    (herr : g.lastServerErrorTime = 0) (hurl : g.serverUrl ≠ "")
    (hssid : g.wifi_ssid ≠ "") (hw : g.wifiConnected = true) :
    (getUserIdFromTag r now g).issued = true := by
  unfold getUserIdFromTag
  rw [if_neg (by simp [herr]), if_neg (by simp [hurl, hssid, hw])]
  cases r with
  | conn => rfl
  | http code body =>
      dsimp only
      split
      · cases body <;> simp
      · split <;> rfl

theorem connectTail_events (o : ConnectOracle) (now : ℕ) (w : Bool) (g : DeviceState)
    (evs : List NetEvent) (htag : g.idTag ≠ "") (hw : g.wifiConnected = true)
    (hiss : (getUserIdFromTag o.userResp now g).issued = true) :
    (connectTail o now w g evs).2
      = (evs ++ (if w = false ∧ g.serverUrl ≠ "" then [NetEvent.heartbeat] else []))
        ++ [NetEvent.userQuery] := by
  unfold connectTail
  dsimp only
  rw [if_pos ⟨htag, hw⟩]
  rw [hiss]
  split <;> simp

theorem connectAfterFetch_noUpdate_frame (o : ConnectOracle) (now : ℕ) (w : Bool)
    (g : DeviceState) (evs : List NetEvent) (hfw : o.fwUpdateAvailable = false) :
    (connectAfterFetch o now w g evs).1.restarted = g.restarted ∧
    (connectAfterFetch o now w g evs).1.serverUrl = g.serverUrl ∧
    (connectAfterFetch o now w g evs).1.configFetchInterval_sec = g.configFetchInterval_sec := by
  have h1 := connectTail_frame o now w g
    (evs ++ (if g.serverUrl ≠ "" then [NetEvent.firmwareCheck] else []))
  unfold connectAfterFetch
  dsimp only
  repeat' split
  all_goals simp_all

theorem connectAfterFetch_events (o : ConnectOracle) (now : ℕ) (w : Bool)
    (g : DeviceState) (evs : List NetEvent) (hurl : g.serverUrl ≠ "")
    (hfw : o.fwUpdateAvailable = false) (htag : g.idTag ≠ "")
    (hwifi : g.wifiConnected = true)
    (hiss : (getUserIdFromTag o.userResp now g).issued = true) :
    (connectAfterFetch o now w g evs).2
      = ((evs ++ [NetEvent.firmwareCheck])
          ++ (if w = false ∧ g.serverUrl ≠ "" then [NetEvent.heartbeat] else []))
        ++ [NetEvent.userQuery] := by
  unfold connectAfterFetch
  dsimp only
  rw [hfw]
  simp only [ite_self, Bool.false_eq_true, if_false, if_pos hurl]
  rw [connectTail_events o now w g _ htag hwifi hiss]

theorem connectAfterFetch_wake (o : ConnectOracle) (now : ℕ) (g2 : DeviceState)
    (evs : List NetEvent)
    (hurl : g2.serverUrl ≠ "") (hssid : g2.wifi_ssid ≠ "") (htag : g2.idTag ≠ "")
    (herr : g2.lastServerErrorTime = 0) (hwifi : g2.wifiConnected = true)
    (hfw : o.fwUpdateAvailable = false) :
    (connectAfterFetch o now true g2 evs).2
      = (evs ++ [NetEvent.firmwareCheck]) ++ [NetEvent.userQuery] ∧
    (connectAfterFetch o now true g2 evs).1.restarted = g2.restarted ∧
    (connectAfterFetch o now true g2 evs).1.wifiConnected = g2.wifiConnected ∧
    (connectAfterFetch o now true g2 evs).1.serverUrl = g2.serverUrl ∧
    (connectAfterFetch o now true g2 evs).1.configFetchInterval_sec
      = g2.configFetchInterval_sec := by
  refine ⟨?_, (connectAfterFetch_noUpdate_frame o now true g2 evs hfw).1,
    (connectAfterFetch_frame o now true g2 evs).2.2.2.2.2.2.2.2.1,
    (connectAfterFetch_noUpdate_frame o now true g2 evs hfw).2.1,
    (connectAfterFetch_noUpdate_frame o now true g2 evs hfw).2.2⟩
  rw [connectAfterFetch_events o now true g2 evs hurl hfw htag hwifi
    (getUserIdFromTag_issued o.userResp now g2 herr hurl hssid hwifi)]
  simp

theorem connectToWiFi_events (o : ConnectOracle) (now : ℕ) (g : DeviceState)
    (hok : o.connectOk = true) (hrep : o.reportOk = true)
    (hurl : g.serverUrl ≠ "") (hssid : g.wifi_ssid ≠ "")
    (htag : g.idTag ≠ "") (herr : g.lastServerErrorTime = 0)
    (hfw : o.fwUpdateAvailable = false)
    (hfetch : o.fetchResp = .http 200 (.payload true none)) :
    (connectToWiFi o now true g).2
      = [.reportConfig, .fetchConfig, .firmwareCheck, .userQuery] ∧
    (connectToWiFi o now true g).1.restarted = g.restarted ∧
    (connectToWiFi o now true g).1.wifiConnected = true ∧
    (connectToWiFi o now true g).1.serverUrl = g.serverUrl ∧
    (connectToWiFi o now true g).1.configFetchInterval_sec = g.configFetchInterval_sec := by
  obtain ⟨e1, e2, e3, e4, e5⟩ := connectAfterFetch_wake o now
    { g with wifiConnected := true, wifiConnectAttempts := 0, lastConfigFetchTime := now }
    ([NetEvent.reportConfig] ++ [NetEvent.fetchConfig]) hurl hssid htag herr rfl hfw
  have hfd := fetchDeviceConfig_payload_none o.fetchApiTest true
    { g with wifiConnected := true, wifiConnectAttempts := 0 } hurl rfl
  unfold connectToWiFi
  dsimp only
  rw [hok]
  rw [if_pos rfl]
  rw [if_pos hurl]
  rw [if_neg hurl]
  rw [hrep]
  rw [if_pos rfl]
  rw [hfetch]
  rw [hfd]
  dsimp only
  rw [if_pos hurl]
  exact ⟨e1.trans (by decide), e2, e3, e4, e5⟩

/-- **C8 (amended).** On wake from deep sleep (sensor wakeup) the network
operations run in the order: WiFi connect, then — still inside
`connectToWiFi` — config report, config fetch and firmware check, then the
rider-name query, and only afterwards the heartbeat issued by `setup()`,
followed by a second config fetch.  So the heartbeat precedes only the final
fetch; the first fetch (and the report) precede it.  Stated for a configured
station (`stWake`) with successful association and report, a fetch response
that carries no config object, no advertised firmware update, and arbitrary
responses to the rider-name query and to the wake-time fetch. -/
theorem C8_wake_order (ur : UserResp) (wr : FetchResp) (wa : HttpOutcome) (now : ℕ) :
    (setupWakeFromSleep { okConnect with userResp := ur } wr wa now stWake).2
      = [.reportConfig, .fetchConfig, .firmwareCheck, .userQuery, .heartbeat,
         .fetchConfig] := by
  obtain ⟨hev, hrst, hwc, hurl, hcfi⟩ :=
    connectToWiFi_events { okConnect with userResp := ur } now stWake rfl rfl
      (by decide) (by decide) (by decide) rfl rfl rfl
  have h1 : ¬(stWake.restarted = true) := by decide
  have h2 : stWake.serverUrl ≠ "" := by decide
  have h3 : 0 < stWake.configFetchInterval_sec := by decide
  unfold setupWakeFromSleep
  dsimp only
  rw [hev, hrst, hwc, hurl, hcfi]
  rw [if_neg h1]
  rw [if_pos rfl]
  rw [if_pos h2]
  rw [if_pos h3]
  rw [if_pos h2]
  split
  all_goals first | rfl | simp

/-- Witness for the amended C8 at fully concrete responses. -/
theorem C8_witness :
    (setupWakeFromSleep { okConnect with userResp := .http 404 .noUserIdKey }
        (.http 200 .parseError) .conn 7 stWake).2
      = [.reportConfig, .fetchConfig, .firmwareCheck, .userQuery, .heartbeat,
         .fetchConfig] :=
  C8_wake_order (.http 404 .noUserIdKey) (.http 200 .parseError) .conn 7

/-- **C1 (counterexample).** The ConfigMode timeout branch does not
re-validate the critical fields the way the claim states: with a stored
wheel size of 100 mm (outside the valid range 500-3000 mm) and no stored
server URL or API key (and no build-time defaults), the claim-side re-check
still reports a missing critical field, but the code-side re-check (`loop()`
lines 823-847) only compares the wheel size against `0.0` and does not look
at the server URL or API key at all, so the device exits ConfigMode. -/
theorem C1_counterexample :
    specCriticalMissingC1 {} nvsWheel100 = true ∧
    stillMissingCritical {} nvsWheel100 = false ∧
    cfgWheel100.configMode = true ∧
    (configTimeoutStep {} {} 300000 cfgWheel100).configMode = false := by
  refine ⟨by decide, by decide, by decide, ?_⟩
  decide

/-- **C1 (amended).** On expiry of the ConfigMode timeout the device
re-checks, over freshly read NVS values, that the WiFi SSID is non-empty,
the default rider id is non-empty (with the legacy `idTag` key and the
build-time default as fallbacks), the stored wheel size is not `0.0` (the
valid range 500-3000 mm is not re-checked), and the stored send interval is
non-zero; the server URL and API key are not re-validated in this branch.
If one of these is still missing, the timeout clock is reset and the device
stays in ConfigMode without restarting; otherwise it stops the config
server and the AP, leaves ConfigMode, reloads the config store, connects to
WiFi and clears `lastSentIdTag`. -/
theorem C1_timeout_revalidation (f : BuildFlags) (co : ConnectOracle) (now : ℕ)
    (g : DeviceState)
    (hexp : g.configModeTimeout_sec * 1000 ≤ now - g.configModeStartTime) :
    (stillMissingCritical f g.nvs = true →
        configTimeoutStep f co now g = { g with configModeStartTime := now }) ∧
    (stillMissingCritical f g.nvs = false →
        (configTimeoutStep f co now g).configMode = false ∧
        (configTimeoutStep f co now g).serverRunning = false ∧
        (configTimeoutStep f co now g).apActive = false ∧
        (configTimeoutStep f co now g).lastSentIdTag = "") := by
  constructor
  · intro hmiss
    unfold configTimeoutStep
    rw [if_pos hexp, if_pos hmiss]
  · intro hmiss
    unfold configTimeoutStep
    rw [if_pos hexp, if_neg (by simp [hmiss])]
    dsimp only
    refine ⟨?_, ?_, ?_, rfl⟩
    · exact ((connectToWiFi_modes co now false _).1.trans
        ((getPreferences_frame f _).1.trans rfl))
    · exact ((connectToWiFi_modes co now false _).2.1.trans
        ((getPreferences_frame f _).2.1.trans rfl))
    · exact ((connectToWiFi_modes co now false _).2.2.trans
        ((getPreferences_frame f _).2.2.1.trans rfl))

/-- Witness for the amended C1 on a device whose NVS is still empty when
the timeout expires: the clock is re-armed and nothing else changes. -/
theorem C1_witness :
    configTimeoutStep {} {} 300000 cfgEmpty
      = { cfgEmpty with configModeStartTime := 300000 } :=
  (C1_timeout_revalidation {} {} 300000 cfgEmpty (by decide)).1 (by decide)

end MCC
